import Mathlib

/-!
# Formal model of the spec-review-kanban control plane

A shallow embedding, in Lean 4, of the core subsystems of the `aicodex`
control plane (instance supervisor, authenticated reverse proxy, session
and assignment model, per-instance AI-agent credential store), translated
from the Rust sources under `src/aicodex/src/`.

Conventions used throughout:
* Bytes are `Nat` values, meaningful when `< 256`; byte strings are
  `List Nat`.
* `chrono::DateTime<Utc>` timestamps are `Int` (seconds may be interpreted
  at any resolution: only ordering and addition of second-durations are
  used by the code under study).
* SQLite tables are Lean lists of row structures; each SQL statement of the
  sources is translated to a pure function on those lists.  `ORDER BY`
  clauses are modelled by an insertion sort on the relevant column.
* Fallible operations return `Except`/`Option` mirroring `Result`/`Option`.
* External crates on which the sources lean (`base64`, `aes-gcm`) are
  modelled concretely by their standard algorithms (RFC 4648 and NIST
  SP 800-38D), since the repository's behaviour depends on them.
-/

namespace Base64

/-- Character of the standard base64 alphabet for a 6-bit value,
as used by `base64::engine::general_purpose::STANDARD`. -/
def charOfSextet (s : Nat) : Char :=
  if s < 26 then Char.ofNat (65 + s)
  else if s < 52 then Char.ofNat (97 + (s - 26))
  else if s < 62 then Char.ofNat (48 + (s - 52))
  else if s = 62 then '+'
  else '/'

/-- Inverse lookup in the standard alphabet; `none` for characters outside it. -/
def sextetOfChar (c : Char) : Option Nat :=
  let n := c.toNat
  if 65 ≤ n ∧ n ≤ 90 then some (n - 65)
  else if 97 ≤ n ∧ n ≤ 122 then some (26 + (n - 97))
  else if 48 ≤ n ∧ n ≤ 57 then some (52 + (n - 48))
  else if c = '+' then some 62
  else if c = '/' then some 63
  else none

/-- Standard (padded) base64 encoding of a byte sequence. -/
def encodeChars : List Nat → List Char
  | [] => []
  | [b0] => [charOfSextet (b0 / 4), charOfSextet (b0 % 4 * 16), '=', '=']
  | [b0, b1] =>
      [charOfSextet (b0 / 4), charOfSextet (b0 % 4 * 16 + b1 / 16),
       charOfSextet (b1 % 16 * 4), '=']
  | b0 :: b1 :: b2 :: rest =>
      charOfSextet (b0 / 4) :: charOfSextet (b0 % 4 * 16 + b1 / 16) ::
      charOfSextet (b1 % 16 * 4 + b2 / 64) :: charOfSextet (b2 % 64) ::
      encodeChars rest

/-- Strict (canonical) base64 decoding: rejects characters outside the
alphabet, lengths not a multiple of 4, misplaced padding and non-zero
trailing bits, as the crate's `STANDARD` engine does. -/
def decodeChars : List Char → Option (List Nat)
  | [] => some []
  | c0 :: c1 :: c2 :: c3 :: rest =>
    (sextetOfChar c0).bind fun s0 =>
    (sextetOfChar c1).bind fun s1 =>
    if c2 = '=' then
      if c3 = '=' ∧ rest = [] ∧ s1 % 16 = 0 then
        some [s0 * 4 + s1 / 16]
      else none
    else
      (sextetOfChar c2).bind fun s2 =>
      if c3 = '=' then
        if rest = [] ∧ s2 % 4 = 0 then
          some [s0 * 4 + s1 / 16, s1 % 16 * 16 + s2 / 4]
        else none
      else
        (sextetOfChar c3).bind fun s3 =>
        (decodeChars rest).map
          (fun bs => (s0 * 4 + s1 / 16) :: (s1 % 16 * 16 + s2 / 4) ::
                     (s2 % 4 * 64 + s3) :: bs)
  | _ => none

/-- `BASE64.encode` on bytes, producing a string. -/
def encode (bs : List Nat) : String := String.mk (encodeChars bs)

/-- `BASE64.decode` on a string, producing bytes or failing. -/
def decode (s : String) : Option (List Nat) := decodeChars s.data

theorem sextet_charOf {s : Nat} (h : s < 64) :
    sextetOfChar (charOfSextet s) = some s := by
  interval_cases s <;> decide

theorem charOf_ne_pad {s : Nat} (h : s < 64) : charOfSextet s ≠ '=' := by
  interval_cases s <;> decide

theorem decode_encodeChars (bs : List Nat) (hb : ∀ b ∈ bs, b < 256) :
    decodeChars (encodeChars bs) = some bs := by
  induction bs using encodeChars.induct with
  | case1 => simp [encodeChars, decodeChars]
  | case2 b0 =>
      have h0 : b0 < 256 := hb b0 (by simp)
      simp only [encodeChars, decodeChars]
      rw [sextet_charOf (show b0 / 4 < 64 by omega),
        sextet_charOf (show b0 % 4 * 16 < 64 by omega)]
      simp only [Option.some_bind, if_true, true_and]
      rw [if_pos (show b0 % 4 * 16 % 16 = 0 by omega)]
      simp only [Option.some.injEq, List.cons.injEq, and_true]
      omega
  | case3 b0 b1 =>
      have h0 : b0 < 256 := hb b0 (by simp)
      have h1 : b1 < 256 := hb b1 (by simp)
      simp only [encodeChars, decodeChars]
      rw [sextet_charOf (show b0 / 4 < 64 by omega),
        sextet_charOf (show b0 % 4 * 16 + b1 / 16 < 64 by omega)]
      simp only [Option.some_bind]
      rw [if_neg (charOf_ne_pad (show b1 % 16 * 4 < 64 by omega)),
        sextet_charOf (show b1 % 16 * 4 < 64 by omega)]
      simp only [Option.some_bind, if_true, true_and]
      rw [if_pos (show b1 % 16 * 4 % 4 = 0 by omega)]
      simp only [Option.some.injEq, List.cons.injEq, and_true]
      omega
  | case4 b0 b1 b2 rest ih =>
      have h0 : b0 < 256 := hb b0 (by simp)
      have h1 : b1 < 256 := hb b1 (by simp)
      have h2 : b2 < 256 := hb b2 (by simp)
      have hrest : ∀ b ∈ rest, b < 256 := fun b hm => hb b (by simp [hm])
      simp only [encodeChars, decodeChars]
      rw [sextet_charOf (show b0 / 4 < 64 by omega),
        sextet_charOf (show b0 % 4 * 16 + b1 / 16 < 64 by omega)]
      simp only [Option.some_bind]
      rw [if_neg (charOf_ne_pad (show b1 % 16 * 4 + b2 / 64 < 64 by omega)),
        sextet_charOf (show b1 % 16 * 4 + b2 / 64 < 64 by omega)]
      simp only [Option.some_bind]
      rw [if_neg (charOf_ne_pad (show b2 % 64 < 64 by omega)),
        sextet_charOf (show b2 % 64 < 64 by omega)]
      simp only [Option.some_bind]
      rw [ih hrest]
      simp only [Option.map_some', Option.some.injEq, List.cons.injEq, and_true]
      omega

theorem decode_encode (bs : List Nat) (hb : ∀ b ∈ bs, b < 256) :
    decode (encode bs) = some bs :=
  decode_encodeChars bs hb

end Base64

namespace AESGCM

/-! ### AES-256-GCM, as implemented by the `aes_gcm` crate

The `aes_gcm` crate implements FIPS 197 AES and NIST SP 800-38D GCM; the
definitions below are that standard algorithm.  128-bit blocks are handled
as big-endian `Nat` values where convenient; byte strings are `List Nat`.
-/

/-- Big-endian byte serialisation of `n` to exactly `len` bytes. -/
def toBytesBE (len n : Nat) : List Nat :=
  (List.range len).map (fun i => n / 256 ^ (len - 1 - i) % 256)

/-- Big-endian interpretation of a byte string as a `Nat`. -/
def fromBytesBE (bs : List Nat) : Nat := bs.foldl (fun acc b => acc * 256 + b) 0

/-- The AES S-box (FIPS 197, figure 7). -/
def sbox : List Nat := [
  0x63, 0x7c, 0x77, 0x7b, 0xf2, 0x6b, 0x6f, 0xc5, 0x30, 0x01, 0x67, 0x2b, 0xfe, 0xd7, 0xab, 0x76,
  0xca, 0x82, 0xc9, 0x7d, 0xfa, 0x59, 0x47, 0xf0, 0xad, 0xd4, 0xa2, 0xaf, 0x9c, 0xa4, 0x72, 0xc0,
  0xb7, 0xfd, 0x93, 0x26, 0x36, 0x3f, 0xf7, 0xcc, 0x34, 0xa5, 0xe5, 0xf1, 0x71, 0xd8, 0x31, 0x15,
  0x04, 0xc7, 0x23, 0xc3, 0x18, 0x96, 0x05, 0x9a, 0x07, 0x12, 0x80, 0xe2, 0xeb, 0x27, 0xb2, 0x75,
  0x09, 0x83, 0x2c, 0x1a, 0x1b, 0x6e, 0x5a, 0xa0, 0x52, 0x3b, 0xd6, 0xb3, 0x29, 0xe3, 0x2f, 0x84,
  0x53, 0xd1, 0x00, 0xed, 0x20, 0xfc, 0xb1, 0x5b, 0x6a, 0xcb, 0xbe, 0x39, 0x4a, 0x4c, 0x58, 0xcf,
  0xd0, 0xef, 0xaa, 0xfb, 0x43, 0x4d, 0x33, 0x85, 0x45, 0xf9, 0x02, 0x7f, 0x50, 0x3c, 0x9f, 0xa8,
  0x51, 0xa3, 0x40, 0x8f, 0x92, 0x9d, 0x38, 0xf5, 0xbc, 0xb6, 0xda, 0x21, 0x10, 0xff, 0xf3, 0xd2,
  0xcd, 0x0c, 0x13, 0xec, 0x5f, 0x97, 0x44, 0x17, 0xc4, 0xa7, 0x7e, 0x3d, 0x64, 0x5d, 0x19, 0x73,
  0x60, 0x81, 0x4f, 0xdc, 0x22, 0x2a, 0x90, 0x88, 0x46, 0xee, 0xb8, 0x14, 0xde, 0x5e, 0x0b, 0xdb,
  0xe0, 0x32, 0x3a, 0x0a, 0x49, 0x06, 0x24, 0x5c, 0xc2, 0xd3, 0xac, 0x62, 0x91, 0x95, 0xe4, 0x79,
  0xe7, 0xc8, 0x37, 0x6d, 0x8d, 0xd5, 0x4e, 0xa9, 0x6c, 0x56, 0xf4, 0xea, 0x65, 0x7a, 0xae, 0x08,
  0xba, 0x78, 0x25, 0x2e, 0x1c, 0xa6, 0xb4, 0xc6, 0xe8, 0xdd, 0x74, 0x1f, 0x4b, 0xbd, 0x8b, 0x8a,
  0x70, 0x3e, 0xb5, 0x66, 0x48, 0x03, 0xf6, 0x0e, 0x61, 0x35, 0x57, 0xb9, 0x86, 0xc1, 0x1d, 0x9e,
  0xe1, 0xf8, 0x98, 0x11, 0x69, 0xd9, 0x8e, 0x94, 0x9b, 0x1e, 0x87, 0xe9, 0xce, 0x55, 0x28, 0xdf,
  0x8c, 0xa1, 0x89, 0x0d, 0xbf, 0xe6, 0x42, 0x68, 0x41, 0x99, 0x2d, 0x0f, 0xb0, 0x54, 0xbb, 0x16]

/-- S-box substitution on one byte. -/
def sb (x : Nat) : Nat := sbox.getD x 0

/-- Multiplication by `x` in GF(2^8) modulo the AES polynomial. -/
def xtime (b : Nat) : Nat := (2 * b ^^^ (if 128 ≤ b then 0x1B else 0)) % 256

/-- Round constants: `rcon (n+1) = xtime (rcon n)`, `rcon 1 = 1`. -/
def rcon : Nat → Nat
  | 0 => 0x8d
  | n + 1 => xtime (rcon n)

/-- Byte-wise xor of two byte strings. -/
def xorBytes (a b : List Nat) : List Nat := List.zipWith (· ^^^ ·) a b

/-- S-box applied to each byte of a key-schedule word. -/
def subWord (w : List Nat) : List Nat := w.map sb

/-- One-byte left rotation of a key-schedule word. -/
def rotWord : List Nat → List Nat
  | [] => []
  | a :: rest => rest ++ [a]

/-- The next word of the AES-256 key schedule, given all previous words. -/
def nextWord (ws : List (List Nat)) : List Nat :=
  let i := ws.length
  let temp := ws.getD (i - 1) []
  let temp :=
    if i % 8 = 0 then xorBytes (subWord (rotWord temp)) [rcon (i / 8), 0, 0, 0]
    else if i % 8 = 4 then subWord temp
    else temp
  xorBytes (ws.getD (i - 8) []) temp

/-- Append `n` further key-schedule words. -/
def expandFrom (ws : List (List Nat)) : Nat → List (List Nat)
  | 0 => ws
  | n + 1 => expandFrom (ws ++ [nextWord ws]) n

/-- The 60-word AES-256 key schedule of a 32-byte key. -/
def keySchedule (key : List Nat) : List (List Nat) :=
  expandFrom ((List.range 8).map fun i => (key.drop (4 * i)).take 4) 52

/-- Round key `r` (16 bytes, column-major). -/
def roundKey (key : List Nat) (r : Nat) : List Nat :=
  (((keySchedule key).drop (4 * r)).take 4).flatten

/-- AddRoundKey. -/
def addRoundKey (st rk : List Nat) : List Nat := xorBytes st rk

/-- SubBytes. -/
def subBytes (st : List Nat) : List Nat := st.map sb

/-- ShiftRows on the column-major 16-byte state. -/
def shiftRows (st : List Nat) : List Nat :=
  (List.range 16).map fun i => st.getD (i % 4 + 4 * ((i / 4 + i % 4) % 4)) 0

/-- MixColumns on one 4-byte column. -/
def mixCol : List Nat → List Nat
  | [a0, a1, a2, a3] =>
      [xtime a0 ^^^ (xtime a1 ^^^ a1) ^^^ a2 ^^^ a3,
       a0 ^^^ xtime a1 ^^^ (xtime a2 ^^^ a2) ^^^ a3,
       a0 ^^^ a1 ^^^ xtime a2 ^^^ (xtime a3 ^^^ a3),
       (xtime a0 ^^^ a0) ^^^ a1 ^^^ a2 ^^^ xtime a3]
  | a => a

/-- MixColumns on the 16-byte state. -/
def mixColumns (st : List Nat) : List Nat :=
  ((List.range 4).map fun c => mixCol ((st.drop (4 * c)).take 4)).flatten

/-- The AES-256 block cipher: 14 rounds over a 16-byte block. -/
def encryptBlock (key block : List Nat) : List Nat :=
  let st0 := addRoundKey block (roundKey key 0)
  let stm := (List.range 13).foldl
    (fun st r => addRoundKey (mixColumns (shiftRows (subBytes st))) (roundKey key (r + 1))) st0
  addRoundKey (shiftRows (subBytes stm)) (roundKey key 14)

/-- Multiplication in GF(2^128) as specified for GHASH
(SP 800-38D, algorithm 1), on 128-bit big-endian `Nat` blocks. -/
def gmul (x y : Nat) : Nat :=
  let R := 0xE1000000000000000000000000000000
  ((List.range 128).foldl
    (fun (zv : Nat × Nat) i =>
      (if y.testBit (127 - i) then zv.1 ^^^ zv.2 else zv.1,
       if zv.2 % 2 = 1 then zv.2 / 2 ^^^ R else zv.2 / 2))
    (0, x)).1

/-- GHASH of a sequence of 128-bit blocks under hash subkey `h`. -/
def ghash (h : Nat) (blocks : List Nat) : Nat :=
  blocks.foldl (fun y b => gmul (y ^^^ b) h) 0

/-- Split a byte string into 128-bit blocks, the last zero-padded
(structural recursion on a fuel bounded by the length). -/
def toBlocksGo : Nat → List Nat → List Nat
  | 0, _ => []
  | _, [] => []
  | fuel + 1, data =>
      fromBytesBE (data.take 16 ++ List.replicate (16 - (data.take 16).length) 0)
        :: toBlocksGo fuel (data.drop 16)

/-- Split a byte string into 128-bit blocks, the last zero-padded. -/
def toBlocks (data : List Nat) : List Nat := toBlocksGo data.length data

/-- Counter block `i` of the CTR keystream (the counter of the first
ciphertext block is `inc32(J0)`, i.e. 2, since the 96-bit nonce gives
`J0 = nonce || 0^31 || 1`).  The cipher output is re-serialised to
16 bytes. -/
def ctrBlock (key nonce : List Nat) (i : Nat) : List Nat :=
  toBytesBE 16 (fromBytesBE (encryptBlock key (nonce ++ toBytesBE 4 ((2 + i) % 2 ^ 32))))

/-- The first `n` bytes of the CTR keystream. -/
def keystream (key nonce : List Nat) (n : Nat) : List Nat :=
  (((List.range ((n + 15) / 16)).map (ctrBlock key nonce)).flatten).take n

/-- CTR-mode encryption/decryption: xor with the keystream. -/
def ctrCrypt (key nonce data : List Nat) : List Nat :=
  List.zipWith (· ^^^ ·) data (keystream key nonce data.length)

/-- The 16-byte GCM authentication tag over a ciphertext (no AAD):
`GHASH_H(pad(C) || len64(A)=0 || len64(C)) xor E_K(J0)`. -/
def gcmTag (key nonce ct : List Nat) : List Nat :=
  let h := fromBytesBE (encryptBlock key (List.replicate 16 0))
  let s := ghash h (toBlocks ct ++ [8 * ct.length])
  toBytesBE 16 (fromBytesBE (encryptBlock key (nonce ++ [0, 0, 0, 1])) ^^^ s)

/-- `Aes256Gcm::encrypt`: ciphertext with the tag appended. -/
def aesGcmEncrypt (key nonce pt : List Nat) : List Nat :=
  ctrCrypt key nonce pt ++ gcmTag key nonce (ctrCrypt key nonce pt)

/-- `Aes256Gcm::decrypt`: split off the trailing 16-byte tag, recompute it
over the ciphertext and compare; on success undo the CTR keystream. -/
def aesGcmDecrypt (key nonce data : List Nat) : Option (List Nat) :=
  if data.length < 16 then none
  else
    let ct := data.take (data.length - 16)
    let tag := data.drop (data.length - 16)
    if gcmTag key nonce ct = tag then some (ctrCrypt key nonce ct) else none

end AESGCM

namespace AESGCM

theorem toBytesBE_length (len n : Nat) : (toBytesBE len n).length = len := by
  simp [toBytesBE]

theorem toBytesBE_lt (len n : Nat) : ∀ b ∈ toBytesBE len n, b < 256 := by
  intro b hb
  simp only [toBytesBE, List.mem_map, List.mem_range] at hb
  obtain ⟨i, _, rfl⟩ := hb
  omega

theorem keystream_length (key nonce : List Nat) (n : Nat) :
    (keystream key nonce n).length = n := by
  unfold keystream
  rw [List.length_take, List.length_flatten]
  have hmap : ((List.range ((n + 15) / 16)).map (ctrBlock key nonce)).map
      List.length = (List.range ((n + 15) / 16)).map (fun _ => 16) := by
    rw [List.map_map]
    exact List.map_congr_left fun i _ => toBytesBE_length 16 _
  rw [hmap]
  have : ((List.range ((n + 15) / 16)).map (fun _ => (16 : Nat))).sum
      = 16 * ((n + 15) / 16) := by
    induction ((n + 15) / 16) with
    | zero => simp
    | succ k ih => rw [List.range_succ]; simp [ih]; omega
  rw [this]
  omega

theorem keystream_lt (key nonce : List Nat) (n : Nat) :
    ∀ b ∈ keystream key nonce n, b < 256 := by
  intro b hb
  unfold keystream at hb
  have hb2 := List.mem_of_mem_take hb
  rw [List.mem_flatten] at hb2
  obtain ⟨l, hl, hbl⟩ := hb2
  rw [List.mem_map] at hl
  obtain ⟨i, _, rfl⟩ := hl
  exact toBytesBE_lt 16 _ b hbl

theorem ctrCrypt_length (key nonce data : List Nat) :
    (ctrCrypt key nonce data).length = data.length := by
  unfold ctrCrypt
  rw [List.length_zipWith, keystream_length]
  omega

theorem zipWith_xor_lt : ∀ (xs ys : List Nat), (∀ x ∈ xs, x < 256) →
    (∀ y ∈ ys, y < 256) → ∀ z ∈ List.zipWith (· ^^^ ·) xs ys, z < 256 := by
  intro xs
  induction xs with
  | nil => intro ys _ _ z hz; simp at hz
  | cons x xs ih =>
      intro ys hx hy z hz
      cases ys with
      | nil => simp at hz
      | cons y ys =>
          simp only [List.zipWith_cons_cons, List.mem_cons] at hz
          rcases hz with rfl | hz
          · exact Nat.xor_lt_two_pow (n := 8) (hx x (by simp)) (hy y (by simp))
          · exact ih ys (fun a ha => hx a (by simp [ha]))
              (fun a ha => hy a (by simp [ha])) z hz

theorem ctrCrypt_lt (key nonce data : List Nat) (hd : ∀ b ∈ data, b < 256) :
    ∀ b ∈ ctrCrypt key nonce data, b < 256 :=
  zipWith_xor_lt data _ hd (keystream_lt key nonce data.length)

theorem zipWith_xor_invol : ∀ (xs ks : List Nat), xs.length ≤ ks.length →
    List.zipWith (· ^^^ ·) (List.zipWith (· ^^^ ·) xs ks) ks = xs := by
  intro xs
  induction xs with
  | nil => intro ks _; simp
  | cons x xs ih =>
      intro ks hlen
      cases ks with
      | nil => simp at hlen
      | cons k ks =>
          simp only [List.zipWith_cons_cons, List.cons.injEq]
          refine ⟨?_, ih ks (by simpa using hlen)⟩
          rw [Nat.xor_assoc, Nat.xor_self, Nat.xor_zero]

theorem ctrCrypt_invol (key nonce data : List Nat) :
    ctrCrypt key nonce (ctrCrypt key nonce data) = data := by
  unfold ctrCrypt
  rw [List.length_zipWith, keystream_length, Nat.min_self]
  exact zipWith_xor_invol data _ (by rw [keystream_length])

theorem gcmTag_length (key nonce ct : List Nat) :
    (gcmTag key nonce ct).length = 16 := toBytesBE_length 16 _

theorem gcmTag_lt (key nonce ct : List Nat) :
    ∀ b ∈ gcmTag key nonce ct, b < 256 := toBytesBE_lt 16 _

/-- GCM round trip at the AEAD layer: decrypting an honest
ciphertext-with-tag under the same key and nonce recovers the plaintext. -/
theorem aesGcmDecrypt_encrypt (key nonce pt : List Nat) :
    aesGcmDecrypt key nonce (aesGcmEncrypt key nonce pt) = some pt := by
  unfold aesGcmEncrypt aesGcmDecrypt
  have hct : (ctrCrypt key nonce pt).length = pt.length := ctrCrypt_length ..
  have htag : (gcmTag key nonce (ctrCrypt key nonce pt)).length = 16 :=
    gcmTag_length ..
  have hlen : (ctrCrypt key nonce pt ++
      gcmTag key nonce (ctrCrypt key nonce pt)).length = pt.length + 16 := by
    rw [List.length_append, hct, htag]
  rw [if_neg (by omega)]
  have hsplit : (ctrCrypt key nonce pt ++
      gcmTag key nonce (ctrCrypt key nonce pt)).length - 16
      = (ctrCrypt key nonce pt).length := by omega
  rw [hsplit, List.take_left, List.drop_left, if_pos rfl, ctrCrypt_invol]

end AESGCM

/-! ### `services/encryption.rs` — `EncryptionService` -/

deriving instance DecidableEq for Except

/-- `EncryptionService`: holds the optional 32-byte AES-256 key. -/
structure EncryptionService where
  key : Option (List Nat)

namespace EncryptionService

/-- `EncryptionService::new`: base64-decode the configured key and keep it
only when it is exactly 32 bytes long. -/
def new (keyBase64 : Option String) : EncryptionService :=
  { key := keyBase64.bind fun k =>
      (Base64.decode k).bind fun bytes =>
        if bytes.length = 32 then some bytes else none }

/-- `EncryptionService::is_enabled`. -/
def is_enabled (svc : EncryptionService) : Bool := svc.key.isSome

/-- `EncryptionService::encrypt`.  The Rust method draws the 12-byte nonce
from a CSPRNG per call; here the nonce is an explicit argument.  The
plaintext argument stands for the UTF-8 bytes of the Rust `&str`;
the result is `base64(nonce || ciphertext || tag)`. -/
def encrypt (svc : EncryptionService) (nonce pt : List Nat) :
    Except String String :=
  match svc.key with
  | none => .error "加密密钥未配置"
  | some key => .ok (Base64.encode (nonce ++ AESGCM.aesGcmEncrypt key nonce pt))

/-- `EncryptionService::decrypt`: base64-decode, reject blobs shorter than
12 bytes, split off the 12-byte nonce and AEAD-decrypt the rest.  The
result stands for the decrypted bytes (the Rust method additionally
re-reads them as a UTF-8 `String`, which succeeds on every byte string
produced by `encrypt` of a `&str`). -/
def decrypt (svc : EncryptionService) (encrypted : String) :
    Except String (List Nat) :=
  match svc.key with
  | none => .error "加密密钥未配置"
  | some key =>
    match Base64.decode encrypted with
    | none => .error "base64 解码失败"
    | some combined =>
      if combined.length < 12 then .error "加密数据格式无效"
      else
        match AESGCM.aesGcmDecrypt key (combined.take 12) (combined.drop 12) with
        | some pt => .ok pt
        | none => .error "解密失败"

/-- Round trip through the full service: for a configured key, a 12-byte
nonce and any plaintext (all well-formed byte strings), decrypting the
string produced by `encrypt` under the same service recovers the
plaintext. -/
theorem decrypt_encrypt (svc : EncryptionService) (key nonce pt : List Nat)
    (hkey : svc.key = some key) (hn : nonce.length = 12)
    (hnb : ∀ b ∈ nonce, b < 256) (hpb : ∀ b ∈ pt, b < 256) :
    ∀ s, svc.encrypt nonce pt = .ok s → svc.decrypt s = .ok pt := by
  intro s hs
  unfold encrypt at hs
  rw [hkey] at hs
  simp only [Except.ok.injEq] at hs
  subst hs
  unfold decrypt
  rw [hkey]
  have hbound : ∀ b ∈ nonce ++ AESGCM.aesGcmEncrypt key nonce pt, b < 256 := by
    intro b hb
    rw [List.mem_append] at hb
    rcases hb with hb | hb
    · exact hnb b hb
    · unfold AESGCM.aesGcmEncrypt at hb
      rw [List.mem_append] at hb
      rcases hb with hb | hb
      · exact AESGCM.ctrCrypt_lt key nonce pt hpb b hb
      · exact AESGCM.gcmTag_lt key nonce _ b hb
  rw [Base64.decode_encode _ hbound]
  dsimp only
  have hlen : (nonce ++ AESGCM.aesGcmEncrypt key nonce pt).length
      = 12 + (pt.length + 16) := by
    rw [List.length_append, hn]
    unfold AESGCM.aesGcmEncrypt
    rw [List.length_append, AESGCM.ctrCrypt_length, AESGCM.gcmTag_length]
  rw [if_neg (by omega)]
  have htake : (nonce ++ AESGCM.aesGcmEncrypt key nonce pt).take 12 = nonce := by
    rw [← hn]; exact List.take_left ..
  have hdrop : (nonce ++ AESGCM.aesGcmEncrypt key nonce pt).drop 12
      = AESGCM.aesGcmEncrypt key nonce pt := by
    rw [← hn]; exact List.drop_left ..
  rw [htake, hdrop, AESGCM.aesGcmDecrypt_encrypt]

end EncryptionService

/-! ### `db/models` — rows of the SQLite tables

Each table is a `List` of rows; each SQL statement is a pure function on
those lists.  Timestamps are `Int`.
-/

/-- `db/models/user.rs` — `User`. -/
structure User where
  id : String
  username : String
  email : Option String
  password_hash : String
  display_name : Option String
  role : String
  current_instance_id : Option String
  is_active : Bool
  created_at : Int
  updated_at : Int
  last_login_at : Option Int
deriving DecidableEq

/-- `db/models/user_session.rs` — `UserSession`. -/
structure UserSession where
  id : String
  user_id : String
  token_hash : String
  expires_at : Int
  created_at : Int
  ip_address : Option String
  user_agent : Option String
deriving DecidableEq

/-- `db/models/vibe_instance.rs` — `VibeInstance`.  `status` and
`health_status` are stored as strings, as in the table. -/
structure VibeInstance where
  id : String
  name : String
  description : Option String
  port : Int
  data_dir : String
  status : String
  auto_start : Bool
  max_users : Option Int
  created_at : Int
  updated_at : Int
  last_health_check : Option Int
  health_status : Option String
  last_error : Option String
  last_error_at : Option Int
deriving DecidableEq

/-- `db/models/user_instance_assignment.rs` — `UserInstanceAssignment`. -/
structure UserInstanceAssignment where
  id : String
  user_id : String
  instance_id : String
  assigned_by : Option String
  assigned_at : Int
deriving DecidableEq

/-- `db/models/instance_ai_agent.rs` — `InstanceAiAgent`. -/
structure InstanceAiAgent where
  id : String
  instance_id : String
  agent_type : String
  is_enabled : Bool
  api_key_encrypted : Option String
  config_json : Option String
  rate_limit_rpm : Option Int
  created_at : Int
  updated_at : Int
deriving DecidableEq

/-- `InstanceStatus` (vibe_instance.rs). -/
inductive InstanceStatus where
  | Stopped | Starting | Running | Stopping | Error
deriving DecidableEq

/-- `impl Display for InstanceStatus`. -/
def InstanceStatus.toStr : InstanceStatus → String
  | .Stopped => "stopped"
  | .Starting => "starting"
  | .Running => "running"
  | .Stopping => "stopping"
  | .Error => "error"

/-- `impl FromStr for InstanceStatus`. -/
def InstanceStatus.fromStr (s : String) : Option InstanceStatus :=
  if s = "stopped" then some .Stopped
  else if s = "starting" then some .Starting
  else if s = "running" then some .Running
  else if s = "stopping" then some .Stopping
  else if s = "error" then some .Error
  else none

/-- `VibeInstance::status_enum`: parse, defaulting to `Stopped`. -/
def VibeInstance.status_enum (i : VibeInstance) : InstanceStatus :=
  (InstanceStatus.fromStr i.status).getD .Stopped

/-- `HealthStatus` (vibe_instance.rs). -/
inductive HealthStatus where
  | Unknown | Healthy | Unhealthy
deriving DecidableEq

/-- `impl Display for HealthStatus`. -/
def HealthStatus.toStr : HealthStatus → String
  | .Unknown => "unknown"
  | .Healthy => "healthy"
  | .Unhealthy => "unhealthy"

/-! ### Session store (`db/models/user_session.rs`, `services/user_manager.rs`) -/

/-- Descending order on `created_at` (the `ORDER BY created_at DESC` of
`limit_user_sessions` / `list_by_user`). -/
def sessionNewer (a b : UserSession) : Prop := b.created_at ≤ a.created_at

instance : DecidableRel sessionNewer :=
  fun a b => inferInstanceAs (Decidable (b.created_at ≤ a.created_at))

instance : IsTotal UserSession sessionNewer :=
  ⟨fun a b => le_total b.created_at a.created_at⟩

instance : IsTrans UserSession sessionNewer :=
  ⟨fun _ _ _ hab hbc => le_trans hbc hab⟩

namespace UserSession

/-- The user's sessions, newest first (`SELECT … WHERE user_id = ?
ORDER BY created_at DESC`; ties are broken by table order). -/
def sortedByUser (db : List UserSession) (uid : String) : List UserSession :=
  (db.filter (fun s => s.user_id == uid)).insertionSort sessionNewer

/-- `UserSession::limit_user_sessions`: `DELETE` every session of the user
except the `maxSessions` newest ones (`… ORDER BY created_at DESC
LIMIT -1 OFFSET ?`). -/
def limit_user_sessions (db : List UserSession) (uid : String)
    (maxSessions : Nat) : List UserSession :=
  let keepIds := ((sortedByUser db uid).take maxSessions).map (·.id)
  db.filter (fun s => s.user_id != uid || decide (s.id ∈ keepIds))

/-- `UserSession::get_valid_by_token_hash`: first row with the given token
hash and `expires_at > now`. -/
def get_valid_by_token_hash (db : List UserSession) (tokenHash : String)
    (now : Int) : Option UserSession :=
  db.find? (fun s => s.token_hash == tokenHash && decide (now < s.expires_at))

/-- `UserSession::extend`: `UPDATE user_sessions SET expires_at = ? WHERE id = ?`. -/
def extend (db : List UserSession) (sid : String) (newExpiresAt : Int) :
    List UserSession :=
  db.map (fun s => if s.id == sid then { s with expires_at := newExpiresAt } else s)

/-- `UserSession::needs_refresh`: remaining lifetime at most
`threshold_secs` (the source compares `expires_at <= now + threshold`). -/
def needs_refresh (s : UserSession) (threshold_secs now : Int) : Bool :=
  decide (s.expires_at ≤ now + threshold_secs)

end UserSession

/-- `SessionConfig` (user_manager.rs). -/
structure SessionConfig where
  session_ttl_secs : Int
  refresh_threshold_secs : Int
  max_sessions_per_user : Nat
  jwt_secret : String

/-- `SessionConfig::default`: 24 h TTL, 1 h refresh threshold, 5 sessions. -/
def SessionConfig.default : SessionConfig :=
  { session_ttl_secs := 86400, refresh_threshold_secs := 3600,
    max_sessions_per_user := 5, jwt_secret := "default-secret-key-please-change" }

/-- `UserManager::create_session`, restricted to its effect on the sessions
table: cap the user's existing sessions, then insert the new row with
`created_at = now` and `expires_at = now + ttl`.  The JWT itself is
produced by the `jsonwebtoken` crate and enters the table only as
`token_hash`; the row id is a fresh UUID — both are arguments here. -/
def create_session (db : List UserSession) (uid : String) (cfg : SessionConfig)
    (now : Int) (sessionId tokenHash : String) (ip ua : Option String) :
    List UserSession :=
  UserSession.limit_user_sessions db uid cfg.max_sessions_per_user ++
    [{ id := sessionId, user_id := uid, token_hash := tokenHash,
       expires_at := now + cfg.session_ttl_secs, created_at := now,
       ip_address := ip, user_agent := ua }]

/-- JWT claims (user_manager.rs). -/
structure Claims where
  sub : String
  username : String
  role : String
  exp : Int
  iat : Int
deriving DecidableEq

/-- The data reachable from `UserManager` during `verify_session`:
the users and sessions tables, plus the two external-crate functions the
source composes with — `jsonwebtoken::decode` under the configured secret
(`verify_token`) and the SHA-256 hex digest (`hash_token`). -/
structure AuthWorld where
  users : List User
  sessions : List UserSession
  jwtVerify : String → Option Claims
  hashToken : String → String

/-- `User::get_by_id`. -/
def User.get_by_id (users : List User) (uid : String) : Option User :=
  users.find? (fun u => u.id == uid)

/-- `UserManager::verify_session`: verify the JWT, look up a live session
by token hash, load the user, require it active, and extend the session
when `needs_refresh`.  Returns the result together with the sessions table
after the optional refresh (`Utc::now()` is the single `now` argument). -/
def verify_session (w : AuthWorld) (cfg : SessionConfig) (token : String)
    (now : Int) : Except String User × List UserSession :=
  match w.jwtVerify token with
  | none => (.error "Token 无效", w.sessions)
  | some claims =>
    match UserSession.get_valid_by_token_hash w.sessions (w.hashToken token) now with
    | none => (.error "会话已过期", w.sessions)
    | some session =>
      match User.get_by_id w.users claims.sub with
      | none => (.error "用户不存在", w.sessions)
      | some user =>
        if !user.is_active then (.error "用户已被停用", w.sessions)
        else if session.needs_refresh cfg.refresh_threshold_secs now then
          (.ok user, UserSession.extend w.sessions session.id (now + cfg.session_ttl_secs))
        else (.ok user, w.sessions)

namespace UserSession

/-- After `limit_user_sessions`, the user has at most `maxSessions` rows
(session ids are primary keys, hence the `Nodup` hypothesis). -/
theorem limit_filter_length_le (db : List UserSession) (uid : String)
    (maxSessions : Nat) (hnodup : (db.map (·.id)).Nodup) :
    ((limit_user_sessions db uid maxSessions).filter
      (fun s => s.user_id == uid)).length ≤ maxSessions := by
  set keepIds := (((sortedByUser db uid).take maxSessions)).map (·.id) with hkeep
  have hsub : (((limit_user_sessions db uid maxSessions).filter
      (fun s => s.user_id == uid)).map (·.id)) ⊆ keepIds := by
    intro x hx
    simp only [List.mem_map] at hx
    obtain ⟨t, ht, rfl⟩ := hx
    rw [List.mem_filter] at ht
    obtain ⟨ht1, ht2⟩ := ht
    rw [limit_user_sessions, List.mem_filter] at ht1
    obtain ⟨-, hcond⟩ := ht1
    rw [Bool.or_eq_true] at hcond
    rcases hcond with h | h
    · rw [bne_iff_ne] at h
      exact absurd (by rwa [beq_iff_eq] at ht2) h
    · exact of_decide_eq_true h
  have hsl : (((limit_user_sessions db uid maxSessions).filter
      (fun s => s.user_id == uid)).map (·.id)).Sublist (db.map (·.id)) := by
    refine List.Sublist.map _ ?_
    exact ((List.filter_sublist _).trans (List.filter_sublist _))
  have hlen := (List.subperm_of_subset (hnodup.sublist hsl) hsub).length_le
  rw [List.length_map] at hlen
  have hk : keepIds.length ≤ maxSessions := by
    rw [hkeep, List.length_map, List.length_take]
    omega
  omega

/-- The sessions deleted by `limit_user_sessions` are the oldest by
`created_at`: every deleted session of the user is no newer than every
kept session of the user. -/
theorem limit_removes_oldest (db : List UserSession) (uid : String)
    (maxSessions : Nat) (hnodup : (db.map (·.id)).Nodup) :
    ∀ r ∈ db, r.user_id = uid → r ∉ limit_user_sessions db uid maxSessions →
    ∀ k ∈ db, k.user_id = uid → k ∈ limit_user_sessions db uid maxSessions →
    r.created_at ≤ k.created_at := by
  intro r hr hruid hrnot k hk hkuid hkin
  set filtered := db.filter (fun s => s.user_id == uid) with hfil
  set sorted := filtered.insertionSort sessionNewer with hsorted
  set keepIds := (sorted.take maxSessions).map (·.id) with hkeep
  have hrne : r.id ∉ keepIds := by
    intro hmem
    apply hrnot
    rw [limit_user_sessions, List.mem_filter]
    refine ⟨hr, ?_⟩
    rw [Bool.or_eq_true]
    exact Or.inr (decide_eq_true hmem)
  have hrf : r ∈ filtered := List.mem_filter.mpr ⟨hr, by simp [hruid]⟩
  have hrs : r ∈ sorted :=
    ((List.perm_insertionSort sessionNewer filtered).mem_iff).mpr hrf
  have hkid : k.id ∈ keepIds := by
    rw [limit_user_sessions, List.mem_filter] at hkin
    obtain ⟨-, hcond⟩ := hkin
    rw [Bool.or_eq_true] at hcond
    rcases hcond with h | h
    · rw [bne_iff_ne] at h
      exact absurd hkuid h
    · exact of_decide_eq_true h
  have hkf : k ∈ filtered := List.mem_filter.mpr ⟨hk, by simp [hkuid]⟩
  have hks : k ∈ sorted :=
    ((List.perm_insertionSort sessionNewer filtered).mem_iff).mpr hkf
  have hnfil : (filtered.map (·.id)).Nodup :=
    hnodup.sublist ((List.filter_sublist db).map (·.id))
  have hnsorted : (sorted.map (·.id)).Nodup :=
    (((List.perm_insertionSort sessionNewer filtered).map (·.id)).nodup_iff).mpr hnfil
  have hsplit : sorted.take maxSessions ++ sorted.drop maxSessions = sorted :=
    List.take_append_drop maxSessions sorted
  have hrdrop : r ∈ sorted.drop maxSessions := by
    have := hrs
    rw [← hsplit, List.mem_append] at this
    rcases this with h | h
    · exact absurd (List.mem_map.mpr ⟨r, h, rfl⟩) hrne
    · exact h
  have hktake : k ∈ sorted.take maxSessions := by
    have hmem := hks
    rw [← hsplit, List.mem_append] at hmem
    rcases hmem with h | h
    · exact h
    · exfalso
      have hnd := hnsorted
      rw [← hsplit, List.map_append, List.nodup_append] at hnd
      exact hnd.2.2 hkid (List.mem_map.mpr ⟨k, h, rfl⟩)
  have hpair : List.Pairwise sessionNewer
      (sorted.take maxSessions ++ sorted.drop maxSessions) := by
    rw [hsplit]
    exact List.sorted_insertionSort sessionNewer filtered
  exact (List.pairwise_append.mp hpair).2.2 k hktake r hrdrop

end UserSession

/-- C4 counterexample input: user `"u"` with one existing session and a
configured maximum of 1.  (All other fields arbitrary concrete values.) -/
def c4Db : List UserSession := [⟨"s1", "u", "t1", 100, 0, none, none⟩]

/-- C4 counterexample configuration: `max_sessions_per_user = 1`. -/
def c4Cfg : SessionConfig :=
  { session_ttl_secs := 100, refresh_threshold_secs := 10,
    max_sessions_per_user := 1, jwt_secret := "secret" }

/-- C4: FALSIFIED as stated.  `limit_user_sessions` runs with limit
`max_sessions_per_user` *before* the new row is inserted, so after a login
the user holds `max + 1` session rows: with one existing session and a
maximum of 1, session creation leaves 2 rows for the user. -/
theorem C4_counterexample :
    ¬ (((create_session c4Db "u" c4Cfg 50 "s2" "t2" none none).filter
        (fun s => s.user_id == "u")).length ≤ c4Cfg.max_sessions_per_user) := by
  decide

/-- C4 (amended): after `create_session`, the user has at most
`max_sessions_per_user + 1` session rows (the pre-existing ones are capped
at the maximum before the insert), and the rows deleted to maintain the
cap are the oldest by `created_at`. -/
theorem C4_session_cap (db : List UserSession) (uid : String)
    (cfg : SessionConfig) (now : Int) (sid th : String) (ip ua : Option String)
    (hnodup : (db.map (·.id)).Nodup) (hfresh : sid ∉ db.map (·.id)) :
    (((create_session db uid cfg now sid th ip ua).filter
        (fun s => s.user_id == uid)).length ≤ cfg.max_sessions_per_user + 1)
    ∧ (∀ r ∈ db, r.user_id = uid →
        r ∉ create_session db uid cfg now sid th ip ua →
        ∀ k ∈ db, k.user_id = uid →
        k ∈ create_session db uid cfg now sid th ip ua →
        r.created_at ≤ k.created_at) := by
  constructor
  · rw [create_session, List.filter_append, List.length_append]
    have h1 := UserSession.limit_filter_length_le db uid
      cfg.max_sessions_per_user hnodup
    have h2 := List.length_filter_le (fun s : UserSession => s.user_id == uid)
      [{ id := sid, user_id := uid, token_hash := th,
         expires_at := now + cfg.session_ttl_secs, created_at := now,
         ip_address := ip, user_agent := ua }]
    simp only [List.length_cons, List.length_nil] at h2
    omega
  · intro r hr hruid hrnot k hk hkuid hkin
    have hrnot2 : r ∉ UserSession.limit_user_sessions db uid
        cfg.max_sessions_per_user := by
      intro hmem
      exact hrnot (by rw [create_session, List.mem_append]; exact Or.inl hmem)
    have hkin2 : k ∈ UserSession.limit_user_sessions db uid
        cfg.max_sessions_per_user := by
      rw [create_session, List.mem_append] at hkin
      rcases hkin with h | h
      · exact h
      · exfalso
        simp only [List.mem_singleton] at h
        apply hfresh
        rw [List.mem_map]
        exact ⟨k, hk, by rw [h]⟩
    exact UserSession.limit_removes_oldest db uid cfg.max_sessions_per_user
      hnodup r hr hruid hrnot2 k hk hkuid hkin2

/-- C4 witness: the amended cap theorem evaluated at the counterexample
input — after the creation the user holds 2 = 1 + 1 rows and the kept row
is the newest. -/
theorem C4_witness :
    (((create_session c4Db "u" c4Cfg 50 "s2" "t2" none none).filter
        (fun s => s.user_id == "u")).length ≤ c4Cfg.max_sessions_per_user + 1)
    ∧ (∀ r ∈ c4Db, r.user_id = "u" →
        r ∉ create_session c4Db "u" c4Cfg 50 "s2" "t2" none none →
        ∀ k ∈ c4Db, k.user_id = "u" →
        k ∈ create_session c4Db "u" c4Cfg 50 "s2" "t2" none none →
        r.created_at ≤ k.created_at) :=
  C4_session_cap c4Db "u" c4Cfg 50 "s2" "t2" none none (by decide) (by decide)

/-- A session updated by `extend` carries the new expiry. -/
theorem UserSession.extend_expires (db : List UserSession) (sid : String)
    (v : Int) : ∀ s ∈ UserSession.extend db sid v, s.id = sid →
    s.expires_at = v := by
  intro s hs hsid
  rw [UserSession.extend, List.mem_map] at hs
  obtain ⟨t, ht, hEq⟩ := hs
  by_cases h : (t.id == sid) = true
  · rw [if_pos h] at hEq
    rw [← hEq]
  · rw [if_neg h] at hEq
    subst hEq
    exact absurd (beq_iff_eq.mpr hsid) h

/-- C7 counterexample input: a session whose remaining lifetime equals the
refresh threshold exactly (`expires_at = 10`, `now = 0`, threshold 10). -/
def c7Session : UserSession := ⟨"s1", "u1", "h1", 10, 0, none, none⟩

/-- C7 counterexample user. -/
def c7User : User :=
  ⟨"u1", "u", none, "ph", none, "user", none, true, 0, 0, none⟩

/-- C7 counterexample world: one user, one session, a JWT verifier that
accepts the token with subject `"u1"`, and a token hasher mapping the
token to the stored hash. -/
def c7World : AuthWorld :=
  { users := [c7User], sessions := [c7Session],
    jwtVerify := fun _ => some ⟨"u1", "u", "user", 1000, 0⟩,
    hashToken := fun _ => "h1" }

/-- C7 counterexample configuration: TTL 100, refresh threshold 10. -/
def c7Cfg : SessionConfig :=
  { session_ttl_secs := 100, refresh_threshold_secs := 10,
    max_sessions_per_user := 5, jwt_secret := "secret" }

/-- C7: FALSIFIED as stated at the threshold boundary.  With remaining
lifetime exactly equal to `refresh_threshold_secs` (so *not* strictly less
than it), the claim requires `expires_at` to stay unchanged, but
`needs_refresh` compares with `<=` and `verify_session` rewrites the
sessions table. -/
theorem C7_counterexample :
    ¬ (c7Session.expires_at - 0 < c7Cfg.refresh_threshold_secs) ∧
    (verify_session c7World c7Cfg "tok" 0).2 ≠ c7World.sessions := by
  decide

/-- C7 (amended): for a session accepted by `verify_session`, the sessions
table is rewritten with `expires_at = now + session_ttl_secs` exactly when
the remaining lifetime is *at most* (`<=`, not `<`) the refresh threshold,
and is left unchanged otherwise. -/
theorem C7_session_refresh (w : AuthWorld) (cfg : SessionConfig)
    (token : String) (now : Int) (claims : Claims) (session : UserSession)
    (user : User) (hjwt : w.jwtVerify token = some claims)
    (hsess : UserSession.get_valid_by_token_hash w.sessions
      (w.hashToken token) now = some session)
    (huser : User.get_by_id w.users claims.sub = some user)
    (hactive : user.is_active = true) :
    ((session.expires_at - now ≤ cfg.refresh_threshold_secs →
        (verify_session w cfg token now).2
          = UserSession.extend w.sessions session.id (now + cfg.session_ttl_secs)
        ∧ ∀ s ∈ (verify_session w cfg token now).2, s.id = session.id →
            s.expires_at = now + cfg.session_ttl_secs)
      ∧ (cfg.refresh_threshold_secs < session.expires_at - now →
        (verify_session w cfg token now).2 = w.sessions))
    ∧ (verify_session w cfg token now).1 = .ok user := by
  rw [verify_session, hjwt]
  dsimp only
  rw [hsess]
  dsimp only
  rw [huser]
  dsimp only
  rw [hactive]
  simp only [Bool.not_true, Bool.false_eq_true, if_false]
  by_cases h : session.expires_at ≤ now + cfg.refresh_threshold_secs
  · rw [if_pos (by rw [UserSession.needs_refresh]; exact decide_eq_true h)]
    refine ⟨⟨fun _ => ⟨rfl, UserSession.extend_expires _ _ _⟩, fun hlt => ?_⟩, rfl⟩
    omega
  · rw [if_neg (by rw [UserSession.needs_refresh]; simp only [decide_eq_true_eq]; omega)]
    exact ⟨⟨fun hle => absurd hle (by omega), fun _ => rfl⟩, rfl⟩

/-- C7 witness: a session within the threshold of expiry
(`expires_at = 5`, `now = 0`, threshold 10) gets its table rewritten. -/
theorem C7_witness :
    (verify_session
        { users := [c7User], sessions := [⟨"s1", "u1", "h1", 5, 0, none, none⟩],
          jwtVerify := fun _ => some ⟨"u1", "u", "user", 1000, 0⟩,
          hashToken := fun _ => "h1" } c7Cfg "tok" 0).2
      = UserSession.extend [⟨"s1", "u1", "h1", 5, 0, none, none⟩] "s1"
          (0 + c7Cfg.session_ttl_secs) :=
  ((C7_session_refresh _ c7Cfg "tok" 0 ⟨"u1", "u", "user", 1000, 0⟩
      ⟨"s1", "u1", "h1", 5, 0, none, none⟩ c7User rfl (by decide) (by decide)
      (by decide)).1.1 (by decide)).1

/-! ### Assignments and the current-instance fallback
(`db/models/user_instance_assignment.rs`, `services/user_manager.rs`) -/

/-- The full relational state reachable through the `sqlx` pool. -/
structure Db where
  users : List User
  sessions : List UserSession
  instances : List VibeInstance
  assignments : List UserInstanceAssignment
  agents : List InstanceAiAgent
deriving DecidableEq

/-- `User::is_admin`: `role == "admin"`. -/
def User.is_admin (u : User) : Bool := u.role == "admin"

/-- `User::update_current_instance`: set `current_instance_id` and
`updated_at` on the matching row. -/
def User.update_current_instance (users : List User) (uid : String)
    (v : Option String) (now : Int) : List User :=
  users.map fun u =>
    if u.id == uid then { u with current_instance_id := v, updated_at := now } else u

/-- `VibeInstance::get_by_id`. -/
def VibeInstance.get_by_id (db : List VibeInstance) (iid : String) :
    Option VibeInstance :=
  db.find? (fun i => i.id == iid)

/-- `VibeInstance::count_users`: `COUNT(*)` of assignments of the instance. -/
def VibeInstance.count_users (asgs : List UserInstanceAssignment)
    (iid : String) : Int :=
  ((asgs.filter (fun a => a.instance_id == iid)).length : Int)

/-- Descending order on `assigned_at` (`ORDER BY assigned_at DESC`). -/
def assignmentNewer (a b : UserInstanceAssignment) : Prop :=
  b.assigned_at ≤ a.assigned_at

instance : DecidableRel assignmentNewer :=
  fun a b => inferInstanceAs (Decidable (b.assigned_at ≤ a.assigned_at))

instance : IsTotal UserInstanceAssignment assignmentNewer :=
  ⟨fun a b => le_total b.assigned_at a.assigned_at⟩

instance : IsTrans UserInstanceAssignment assignmentNewer :=
  ⟨fun _ _ _ hab hbc => le_trans hbc hab⟩

/-- `UserInstanceAssignment::list_by_user`: the user's assignments, newest
first by `assigned_at`. -/
def UserInstanceAssignment.list_by_user (db : List UserInstanceAssignment)
    (uid : String) : List UserInstanceAssignment :=
  (db.filter (fun a => a.user_id == uid)).insertionSort assignmentNewer

/-- `UserInstanceAssignment::delete_by_user_and_instance`. -/
def UserInstanceAssignment.delete_by_user_and_instance
    (db : List UserInstanceAssignment) (uid iid : String) :
    List UserInstanceAssignment :=
  db.filter (fun a => !(a.user_id == uid && a.instance_id == iid))

/-- `InstanceInfo` (vibe_instance.rs), the public projection of an instance. -/
structure InstanceInfo where
  id : String
  name : String
  description : Option String
  port : Int
  status : String
  health_status : String
  auto_start : Bool
  max_users : Option Int
  user_count : Option Int
  created_at : Int
  last_health_check : Option Int
  last_error : Option String
  last_error_at : Option Int
deriving DecidableEq

/-- `impl From<VibeInstance> for InstanceInfo`. -/
def VibeInstance.toInfo (i : VibeInstance) : InstanceInfo :=
  { id := i.id, name := i.name, description := i.description, port := i.port,
    status := i.status, health_status := i.health_status.getD "unknown",
    auto_start := i.auto_start, max_users := i.max_users, user_count := none,
    created_at := i.created_at, last_health_check := i.last_health_check,
    last_error := i.last_error, last_error_at := i.last_error_at }

/-- `UserManager::get_user_instances`: the user's assignments newest
first, keeping those whose instance row exists, with `user_count`
filled in. -/
def get_user_instances (db : Db) (uid : String) : List InstanceInfo :=
  (UserInstanceAssignment.list_by_user db.assignments uid).filterMap fun a =>
    (VibeInstance.get_by_id db.instances a.instance_id).map fun inst =>
      { inst.toInfo with
          user_count := some (VibeInstance.count_users db.assignments a.instance_id) }

/-- `UserManager::unassign_user_from_instance`: admin check, delete the
assignment, and when the removed instance is the user's current one fall
back to the first remaining assigned instance (or null). -/
def unassign_user_from_instance (admin : User) (db : Db) (uid iid : String)
    (now : Int) : Except String Db :=
  if ¬ admin.is_admin then .error "需要管理员权限"
  else
    let db2 := { db with assignments :=
      UserInstanceAssignment.delete_by_user_and_instance db.assignments uid iid }
    match User.get_by_id db2.users uid with
    | none => .ok db2
    | some user =>
      if user.current_instance_id = some iid then
        match (get_user_instances db2 uid).head? with
        | some first =>
            .ok { db2 with users :=
              User.update_current_instance db2.users uid (some first.id) now }
        | none =>
            .ok { db2 with users :=
              User.update_current_instance db2.users uid none now }
      else .ok db2

/-- `find?`-level description of `update_current_instance`. -/
theorem User.get_by_id_update (users : List User) (uid : String)
    (v : Option String) (now : Int) :
    User.get_by_id (User.update_current_instance users uid v now) uid
      = (User.get_by_id users uid).map
          (fun u => { u with current_instance_id := v, updated_at := now }) := by
  induction users with
  | nil => rfl
  | cons u rest ih =>
      by_cases h : u.id = uid
      · simp [User.update_current_instance, User.get_by_id, List.find?_cons, h]
      · have hb : (u.id == uid) = false := by
          rw [beq_eq_false_iff_ne]; exact h
        simp only [User.update_current_instance, List.map_cons, if_neg h] at ih ⊢
        simp only [User.get_by_id, List.find?_cons] at ih ⊢
        simp only [hb, Bool.false_eq_true, if_false] at ih ⊢
        exact ih

/-- The row found by `VibeInstance::get_by_id` carries the requested id. -/
theorem VibeInstance.get_by_id_id (db : List VibeInstance) (iid : String)
    (inst : VibeInstance) (h : VibeInstance.get_by_id db iid = some inst) :
    inst.id = iid := by
  rw [VibeInstance.get_by_id] at h
  have h2 := List.find?_some h
  simp only [beq_iff_eq] at h2
  exact h2

/-- Members of `list_by_user` are rows of the table belonging to the user. -/
theorem UserInstanceAssignment.mem_list_by_user
    (db : List UserInstanceAssignment) (uid : String) :
    ∀ a ∈ UserInstanceAssignment.list_by_user db uid,
      a ∈ db ∧ a.user_id = uid := by
  intro a ha
  rw [UserInstanceAssignment.list_by_user] at ha
  have hmem := (List.perm_insertionSort assignmentNewer _).mem_iff.mp ha
  rw [List.mem_filter] at hmem
  exact ⟨hmem.1, beq_iff_eq.mp hmem.2⟩

/-- C8: `unassign_user_from_instance` deletes exactly the `(user,
instance)` assignment rows; when the removed instance was the user's
current one, the new `current_instance_id` is the first remaining
assignment by `assigned_at` descending (or null if none remains);
otherwise the users table is untouched.  Assignments are assumed to
reference existing instance rows (instance deletion is guarded on zero
assignments). -/
theorem C8_unassign_fallback (admin : User) (db : Db) (uid iid : String)
    (user : User) (now : Int)
    (hadmin : admin.is_admin = true)
    (huser : User.get_by_id db.users uid = some user)
    (href : ∀ a ∈ db.assignments, a.user_id = uid →
      (VibeInstance.get_by_id db.instances a.instance_id).isSome) :
    ∃ db2, unassign_user_from_instance admin db uid iid now = .ok db2
      ∧ db2.assignments = UserInstanceAssignment.delete_by_user_and_instance
          db.assignments uid iid
      ∧ (user.current_instance_id = some iid →
          User.get_by_id db2.users uid = some { user with
            current_instance_id :=
              (UserInstanceAssignment.list_by_user
                (UserInstanceAssignment.delete_by_user_and_instance
                  db.assignments uid iid) uid).head?.map (fun a => a.instance_id),
            updated_at := now })
      ∧ (user.current_instance_id ≠ some iid → db2.users = db.users) := by
  rw [unassign_user_from_instance, if_neg (by rw [hadmin]; exact fun h => h rfl)]
  generalize hasgs2 : UserInstanceAssignment.delete_by_user_and_instance
    db.assignments uid iid = asgs2
  dsimp only
  rw [show User.get_by_id db.users uid = some user from huser]
  dsimp only
  by_cases hcur : user.current_instance_id = some iid
  · rw [if_pos hcur]
    cases hl : UserInstanceAssignment.list_by_user asgs2 uid with
    | nil =>
        have hempty : get_user_instances { db with assignments := asgs2 } uid
            = [] := by
          rw [get_user_instances]
          dsimp only
          rw [hl]
          rfl
        rw [hempty]
        dsimp only [List.head?]
        refine ⟨_, rfl, rfl, fun _ => ?_, fun h => absurd hcur h⟩
        dsimp only
        rw [User.get_by_id_update, huser]
        rfl
    | cons a rest =>
        have ha : a ∈ UserInstanceAssignment.list_by_user asgs2 uid := by
          rw [hl]
          exact List.mem_cons_self a rest
        obtain ⟨hamem, hauid⟩ :=
          UserInstanceAssignment.mem_list_by_user asgs2 uid a ha
        have hamem2 : a ∈ db.assignments := by
          rw [← hasgs2, UserInstanceAssignment.delete_by_user_and_instance] at hamem
          exact List.mem_of_mem_filter hamem
        obtain ⟨inst, hinst⟩ :=
          Option.isSome_iff_exists.mp (href a hamem2 hauid)
        have hhead : (get_user_instances { db with assignments := asgs2 } uid).head?
            = some
              { inst.toInfo with
                user_count := some (VibeInstance.count_users asgs2 a.instance_id) } := by
          rw [get_user_instances]
          dsimp only
          rw [hl, List.filterMap_cons, hinst]
          rfl
        rw [hhead]
        dsimp only
        refine ⟨_, rfl, rfl, fun _ => ?_, fun h => absurd hcur h⟩
        dsimp only
        rw [User.get_by_id_update, huser]
        dsimp only [Option.map, List.head?, VibeInstance.toInfo]
        rw [VibeInstance.get_by_id_id db.instances a.instance_id inst hinst]
  · rw [if_neg hcur]
    exact ⟨_, rfl, rfl, fun h => absurd h hcur, fun _ => rfl⟩

/-- C8 witness instance α (port 18100). -/
def c8Inst1 : VibeInstance :=
  ⟨"i1", "alpha", none, 18100, "/data/i1", "stopped", false, none, 0, 0,
   none, some "unknown", none, none⟩

/-- C8 witness instance β (port 18101). -/
def c8Inst2 : VibeInstance :=
  ⟨"i2", "beta", none, 18101, "/data/i2", "stopped", false, none, 0, 0,
   none, some "unknown", none, none⟩

/-- C8 witness user with current instance `"i1"`. -/
def c8User : User :=
  ⟨"u1", "alice", none, "ph", none, "user", some "i1", true, 0, 0, none⟩

/-- C8 witness admin. -/
def c8Admin : User :=
  ⟨"a1", "root", none, "ph", none, "admin", none, true, 0, 0, none⟩

/-- C8 witness database: the user is assigned to both instances, `"i2"`
more recently. -/
def c8Db : Db :=
  { users := [c8User, c8Admin],
    sessions := [],
    instances := [c8Inst1, c8Inst2],
    assignments := [⟨"as1", "u1", "i1", some "a1", 1⟩,
                    ⟨"as2", "u1", "i2", some "a1", 2⟩],
    agents := [] }

/-- C8 witness: unassigning the current instance `"i1"` of the user falls
back to the most recently assigned remaining instance. -/
theorem C8_witness :
    ∃ db2, unassign_user_from_instance c8Admin c8Db "u1" "i1" 5 = .ok db2
      ∧ db2.assignments = UserInstanceAssignment.delete_by_user_and_instance
          c8Db.assignments "u1" "i1"
      ∧ (c8User.current_instance_id = some "i1" →
          User.get_by_id db2.users "u1" = some { c8User with
            current_instance_id :=
              (UserInstanceAssignment.list_by_user
                (UserInstanceAssignment.delete_by_user_and_instance
                  c8Db.assignments "u1" "i1") "u1").head?.map (fun a => a.instance_id),
            updated_at := 5 })
      ∧ (c8User.current_instance_id ≠ some "i1" → db2.users = c8Db.users) :=
  C8_unassign_fallback c8Admin c8Db "u1" "i1" c8User 5 (by decide) (by decide)
    (by decide)

/-! ### Port allocation (`db/models/vibe_instance.rs`,
`services/instance_manager.rs`) -/

/-- `ApiError` (error.rs), restricted to the message-carrying variants. -/
inductive AppError where
  | NotFound (msg : String)
  | BadRequest (msg : String)
  | Unauthorized (msg : String)
  | Forbidden (msg : String)
  | Conflict (msg : String)
  | Timeout (msg : String)
  | Internal (msg : String)
deriving DecidableEq

/-- The linear scan of `next_available_port`: try `fuel` consecutive ports
starting at `p`, returning the first not used by any instance row. -/
def portScan (instances : List VibeInstance) : Int → Nat → Option Int
  | _, 0 => none
  | p, fuel + 1 =>
      if instances.any (fun i => decide (i.port = p)) then
        portScan instances (p + 1) fuel
      else some p

/-- `VibeInstance::next_available_port`: smallest port in
`[base_port, max_port]` not used by any existing instance. -/
def VibeInstance.next_available_port (instances : List VibeInstance)
    (base_port max_port : Int) : Option Int :=
  portScan instances base_port (max_port - base_port + 1).toNat

/-- `InstanceConfig` (instance_manager.rs). -/
structure InstanceConfig where
  vibe_kanban_bin : String
  data_root : String
  port_base : Int
  port_max : Int
  health_check_interval_secs : Nat
  startup_timeout_secs : Nat
  shutdown_timeout_secs : Nat

/-- `InstanceManager::create`: allocate a port (failing with `Conflict`
when the range is exhausted), scaffold the data directory (filesystem
effects are not modelled; the happy path is taken) and insert the row with
status `stopped`.  Returns the outcome and the resulting state. -/
def InstanceManager.create (db : Db) (cfg : InstanceConfig) (name : String)
    (description : Option String) (auto_start : Bool) (max_users : Option Int)
    (newId : String) (now : Int) : Except AppError VibeInstance × Db :=
  match VibeInstance.next_available_port db.instances cfg.port_base cfg.port_max with
  | none => (.error (.Conflict "没有可用的端口"), db)
  | some port =>
      let row : VibeInstance :=
        { id := newId, name := name, description := description, port := port,
          data_dir := cfg.data_root ++ "/" ++ newId, status := "stopped",
          auto_start := auto_start, max_users := max_users, created_at := now,
          updated_at := now, last_health_check := none,
          health_status := some "unknown", last_error := none,
          last_error_at := none }
      (.ok row, { db with instances := db.instances ++ [row] })

/-- Specification of the scan: a returned port is in the window, unused,
and all smaller window ports are used; `none` is returned exactly when the
whole window is used. -/
theorem portScan_spec (instances : List VibeInstance) :
    ∀ (fuel : Nat) (p : Int),
      (∀ r, portScan instances p fuel = some r →
        p ≤ r ∧ r < p + fuel ∧ (∀ i ∈ instances, i.port ≠ r) ∧
        ∀ q, p ≤ q → q < r → ∃ i ∈ instances, i.port = q)
      ∧ (portScan instances p fuel = none ↔
          ∀ q, p ≤ q → q < p + fuel → ∃ i ∈ instances, i.port = q) := by
  intro fuel
  induction fuel with
  | zero =>
      intro p
      refine ⟨fun r hr => by simp [portScan] at hr, ?_⟩
      simp only [portScan]
      constructor
      · intro _ q hq1 hq2
        omega
      · intro _
        trivial
  | succ n ih =>
      intro p
      by_cases hused : instances.any (fun i => decide (i.port = p)) = true
      · have hex : ∃ i ∈ instances, i.port = p := by
          rw [List.any_eq_true] at hused
          obtain ⟨i, hi, hip⟩ := hused
          exact ⟨i, hi, of_decide_eq_true hip⟩
        constructor
        · intro r hr
          rw [portScan, if_pos hused] at hr
          obtain ⟨h1, h2, h3, h4⟩ := (ih (p + 1)).1 r hr
          refine ⟨by omega, by omega, h3, fun q hq1 hq2 => ?_⟩
          by_cases hq : q = p
          · subst hq; exact hex
          · exact h4 q (by omega) hq2
        · rw [portScan, if_pos hused, (ih (p + 1)).2]
          constructor
          · intro h q hq1 hq2
            by_cases hq : q = p
            · subst hq; exact hex
            · exact h q (by omega) (by omega)
          · intro h q hq1 hq2
            exact h q (by omega) (by omega)
      · constructor
        · intro r hr
          rw [portScan, if_neg hused] at hr
          obtain rfl : p = r := by
            simpa using hr
          refine ⟨le_refl p, by omega, ?_, fun q hq1 hq2 => by omega⟩
          intro i hi hip
          exact hused (List.any_eq_true.mpr ⟨i, hi, decide_eq_true hip⟩)
        · rw [portScan, if_neg hused]
          constructor
          · intro h
            simp at h
          · intro h
            exfalso
            obtain ⟨i, hi, hip⟩ := h p (le_refl p) (by omega)
            exact hused (List.any_eq_true.mpr ⟨i, hi, decide_eq_true hip⟩)

/-- C5: `next_available_port` returns the smallest port of
`[port_base, port_max]` not used by any instance row, returns `none`
exactly when every port of the range is used, and in that exhausted case
`InstanceManager::create` fails with a `Conflict` error leaving the state
unchanged (no instance row created). -/
theorem C5_port_allocation (db : Db) (cfg : InstanceConfig) (name : String)
    (description : Option String) (auto_start : Bool) (max_users : Option Int)
    (newId : String) (now : Int) :
    (∀ p, VibeInstance.next_available_port db.instances cfg.port_base
        cfg.port_max = some p →
      cfg.port_base ≤ p ∧ p ≤ cfg.port_max ∧ (∀ i ∈ db.instances, i.port ≠ p) ∧
      ∀ q, cfg.port_base ≤ q → q < p → ∃ i ∈ db.instances, i.port = q)
    ∧ (VibeInstance.next_available_port db.instances cfg.port_base
        cfg.port_max = none ↔
      ∀ q, cfg.port_base ≤ q → q ≤ cfg.port_max → ∃ i ∈ db.instances, i.port = q)
    ∧ ((∀ q, cfg.port_base ≤ q → q ≤ cfg.port_max →
        ∃ i ∈ db.instances, i.port = q) →
      InstanceManager.create db cfg name description auto_start max_users
        newId now = (.error (.Conflict "没有可用的端口"), db)) := by
  have hspec := portScan_spec db.instances
    (cfg.port_max - cfg.port_base + 1).toNat cfg.port_base
  have hnone : VibeInstance.next_available_port db.instances cfg.port_base
      cfg.port_max = none ↔
      ∀ q, cfg.port_base ≤ q → q ≤ cfg.port_max →
        ∃ i ∈ db.instances, i.port = q := by
    rw [VibeInstance.next_available_port, hspec.2]
    constructor
    · intro h q hq1 hq2
      exact h q hq1 (by omega)
    · intro h q hq1 hq2
      exact h q hq1 (by omega)
  refine ⟨?_, hnone, ?_⟩
  · intro p hp
    obtain ⟨h1, h2, h3, h4⟩ := hspec.1 p hp
    exact ⟨h1, by omega, h3, h4⟩
  · intro h
    rw [InstanceManager.create, hnone.mpr h]

/-- C5 witness instance occupying the only port of the window. -/
def c5Inst : VibeInstance :=
  ⟨"i1", "alpha", none, 18100, "/data/i1", "stopped", false, none, 0, 0,
   none, some "unknown", none, none⟩

/-- C5 witness state: one instance, window `[18100, 18100]`. -/
def c5Db : Db :=
  { users := [], sessions := [], instances := [c5Inst], assignments := [],
    agents := [] }

/-- C5 witness configuration with an exhausted port window. -/
def c5Cfg : InstanceConfig :=
  { vibe_kanban_bin := "/usr/local/bin/vibe-kanban",
    data_root := "/data/vibe-instances", port_base := 18100,
    port_max := 18100, health_check_interval_secs := 30,
    startup_timeout_secs := 30, shutdown_timeout_secs := 30 }

/-- C5 witness: with the window full, creation fails with `Conflict` and
the state (hence the instances table) is unchanged. -/
theorem C5_witness :
    InstanceManager.create c5Db c5Cfg "beta" none false none "new" 0
      = (.error (.Conflict "没有可用的端口"), c5Db) :=
  (C5_port_allocation c5Db c5Cfg "beta" none false none "new" 0).2.2 (by
    intro q hq1 hq2
    have hq : q = 18100 := by
      simp only [c5Cfg] at hq1 hq2
      omega
    subst hq
    exact ⟨c5Inst, by simp [c5Db], rfl⟩)

/-! ### Instance supervisor start (`services/instance_manager.rs`) -/

/-- `impl Display for ApiError` (thiserror `#[error]` strings). -/
def AppError.display : AppError → String
  | .NotFound m => "未找到: " ++ m
  | .BadRequest m => "请求无效: " ++ m
  | .Unauthorized m => "未授权: " ++ m
  | .Forbidden m => "禁止访问: " ++ m
  | .Conflict m => "冲突: " ++ m
  | .Timeout m => "超时: " ++ m
  | .Internal m => "内部错误: " ++ m

/-- `VibeInstance::update_status_with_error`: set the status string,
overwrite `last_error`/`last_error_at` (clearing both when the error is
`None`) and bump `updated_at`. -/
def VibeInstance.update_status_with_error (instances : List VibeInstance)
    (id : String) (status : InstanceStatus) (error : Option String)
    (now : Int) : List VibeInstance :=
  instances.map fun i =>
    if i.id == id then
      { i with
          status := status.toStr
          last_error := error
          last_error_at := error.map (fun _ => now)
          updated_at := now }
    else i

/-- `VibeInstance::update_health_status`. -/
def VibeInstance.update_health_status (instances : List VibeInstance)
    (id : String) (hs : HealthStatus) (now : Int) : List VibeInstance :=
  instances.map fun i =>
    if i.id == id then
      { i with
          health_status := some hs.toStr
          last_health_check := some now
          updated_at := now }
    else i

/-- Supervisor state: the relational state, the process handle map
(represented by its key set) and the log of child processes terminated via
`Child::kill`. -/
structure SupervisorState where
  db : Db
  processes : List String
  killed : List String
deriving DecidableEq

/-- Replace the instances table inside a supervisor state. -/
def SupervisorState.withInstances (st : SupervisorState)
    (l : List VibeInstance) : SupervisorState :=
  { st with db := { st.db with instances := l } }

/-- `InstanceManager::wait_for_healthy`, over the outcomes of the health
probes issued before `startup_timeout_secs` elapses: succeed at the first
2xx probe, otherwise time out once the window closes. -/
def wait_for_healthy : List Bool → Except AppError Unit
  | [] => .error (.Timeout "实例启动超时")
  | true :: _ => .ok ()
  | false :: rest => wait_for_healthy rest

/-- `InstanceManager::kill_process`: remove the handle from the map and
kill the child if one was present. -/
def kill_process (st : SupervisorState) (id : String) : SupervisorState :=
  if id ∈ st.processes then
    { st with
        processes := st.processes.filter (fun x => x != id)
        killed := id :: st.killed }
  else st

/-- `InstanceManager::start`: look up the instance, no-op when already
running, mark it `starting`, spawn (the outcome of the OS spawn is the
`spawn` argument; environment preparation is pure here and cannot fail),
insert the process handle, and wait for health.  On probe timeout the
child is killed and the instance ends in `error` with a diagnostic
message; on success the instance becomes `running`/`healthy`. -/
def InstanceManager.start (st : SupervisorState) (id : String)
    (spawn : Except AppError Unit) (probes : List Bool) (now : Int) :
    Except AppError Unit × SupervisorState :=
  match VibeInstance.get_by_id st.db.instances id with
  | none => (.error (.NotFound "实例不存在"), st)
  | some inst =>
    if inst.status_enum = InstanceStatus.Running then (.ok (), st)
    else
      let st1 := st.withInstances
        (VibeInstance.update_status_with_error st.db.instances id
          .Starting none now)
      match spawn with
      | .error e =>
          (.error e, st1.withInstances
            (VibeInstance.update_status_with_error st1.db.instances id
              .Error (some ("启动进程失败: " ++ e.display)) now))
      | .ok _ =>
          let st2 := { st1 with processes :=
            id :: st1.processes.filter (fun x => x != id) }
          match wait_for_healthy probes with
          | .ok _ =>
              (.ok (), st2.withInstances
                (VibeInstance.update_health_status
                  (VibeInstance.update_status_with_error st2.db.instances id
                    .Running none now) id .Healthy now))
          | .error e =>
              let st3 := kill_process st2 id
              (.error e, st3.withInstances
                (VibeInstance.update_status_with_error st3.db.instances id
                  .Error (some ("健康检查失败: " ++ e.display)) now))

/-- All-failing probes time out. -/
theorem wait_for_healthy_all_false (probes : List Bool)
    (h : ∀ b ∈ probes, b = false) :
    wait_for_healthy probes = .error (.Timeout "实例启动超时") := by
  induction probes with
  | nil => rfl
  | cons b rest ih =>
      cases b with
      | false =>
          rw [wait_for_healthy]
          exact ih (fun x hx => h x (List.mem_cons_of_mem _ hx))
      | true => exact absurd (h true (List.mem_cons_self ..)) (by simp)

/-- Rows touched by `update_status_with_error` carry the new status and
error message. -/
theorem VibeInstance.update_status_with_error_mem
    (instances : List VibeInstance) (id : String) (status : InstanceStatus)
    (error : Option String) (now : Int) :
    ∀ i ∈ VibeInstance.update_status_with_error instances id status error now,
      i.id = id → i.status = status.toStr ∧ i.last_error = error := by
  intro i hi hid
  rw [VibeInstance.update_status_with_error, List.mem_map] at hi
  obtain ⟨orig, ho, hEq⟩ := hi
  by_cases h : (orig.id == id) = true
  · rw [if_pos h] at hEq
    rw [← hEq]
    exact ⟨rfl, rfl⟩
  · rw [if_neg h] at hEq
    subst hEq
    exact absurd (beq_iff_eq.mpr hid) h

/-- C6: when `start` is invoked on an existing, not-running instance, the
spawn succeeds but every health probe within the startup window fails,
then `start` returns an error, the instance row ends in status `error`
with a non-empty `last_error`, and the spawned child is terminated and
absent from the process handle map. -/
theorem C6_start_timeout (st : SupervisorState) (id : String)
    (inst : VibeInstance) (probes : List Bool) (now : Int)
    (hinst : VibeInstance.get_by_id st.db.instances id = some inst)
    (hnotrun : inst.status_enum ≠ InstanceStatus.Running)
    (hprobes : ∀ b ∈ probes, b = false) :
    (∃ e, (InstanceManager.start st id (.ok ()) probes now).1 = .error e)
    ∧ (∀ i ∈ (InstanceManager.start st id (.ok ()) probes now).2.db.instances,
        i.id = id → i.status = "error" ∧
          ∃ msg, i.last_error = some msg ∧ msg ≠ "")
    ∧ id ∉ (InstanceManager.start st id (.ok ()) probes now).2.processes
    ∧ id ∈ (InstanceManager.start st id (.ok ()) probes now).2.killed := by
  rw [InstanceManager.start, hinst]
  dsimp only
  rw [if_neg hnotrun, wait_for_healthy_all_false probes hprobes]
  dsimp only
  rw [kill_process, if_pos (List.mem_cons_self ..)]
  dsimp only [SupervisorState.withInstances]
  refine ⟨⟨_, rfl⟩, ?_, ?_, ?_⟩
  · intro i hi hid
    obtain ⟨h1, h2⟩ := VibeInstance.update_status_with_error_mem _ id
      .Error _ now i hi hid
    exact ⟨h1, _, h2, by decide⟩
  · intro hmem
    rw [List.mem_filter] at hmem
    rcases hmem with ⟨-, hfalse⟩
    simp at hfalse
  · exact List.mem_cons_self ..

/-- C6 witness instance row. -/
def c6Inst : VibeInstance :=
  ⟨"i1", "alpha", none, 18100, "/data/i1", "stopped", true, none, 0, 0,
    none, some "unknown", none, none⟩

/-- C6 witness state: one stopped instance with an empty process map. -/
def c6St : SupervisorState :=
  { db := ⟨[], [], [c6Inst], [], []⟩, processes := [], killed := [] }

/-- C6 witness: two failing probes on the stopped instance `"i1"`. -/
theorem C6_witness :
    (∃ e, (InstanceManager.start c6St "i1" (.ok ()) [false, false] 9).1
      = .error e)
    ∧ (∀ i ∈ (InstanceManager.start c6St "i1" (.ok ())
          [false, false] 9).2.db.instances,
        i.id = "i1" → i.status = "error" ∧
          ∃ msg, i.last_error = some msg ∧ msg ≠ "")
    ∧ "i1" ∉ (InstanceManager.start c6St "i1" (.ok ())
        [false, false] 9).2.processes
    ∧ "i1" ∈ (InstanceManager.start c6St "i1" (.ok ())
        [false, false] 9).2.killed :=
  C6_start_timeout c6St "i1" c6Inst [false, false] 9 (by decide) (by decide)
    (by decide)

/-! ### Agent environment assembly (`services/instance_manager.rs`) and
agent configuration (`db/models/instance_ai_agent.rs`,
`services/agent_config_manager.rs`) -/

/-- Ascending order on `agent_type` (`ORDER BY agent_type`). -/
def agentTypeOrder (a b : InstanceAiAgent) : Prop :=
  a.agent_type ≤ b.agent_type

instance : DecidableRel agentTypeOrder :=
  fun a b => inferInstanceAs (Decidable (a.agent_type ≤ b.agent_type))

instance : IsTotal InstanceAiAgent agentTypeOrder :=
  ⟨fun a b => le_total a.agent_type b.agent_type⟩

instance : IsTrans InstanceAiAgent agentTypeOrder :=
  ⟨fun _ _ _ hab hbc => le_trans hab hbc⟩

/-- `InstanceAiAgent::list_enabled_by_instance`. -/
def InstanceAiAgent.list_enabled_by_instance (agents : List InstanceAiAgent)
    (iid : String) : List InstanceAiAgent :=
  (agents.filter (fun a => a.instance_id == iid && a.is_enabled)).insertionSort
    agentTypeOrder

/-- `InstanceManager::get_agent_env_vars`: per-agent environment of the
child process.  NOTE (faithful to the source): when a stored key exists,
the key variable is bound to `api_key_encrypted` — the stored ciphertext —
and no decryption takes place (the source carries a `TODO: 解密 API key`
comment at this line). -/
def InstanceManager.get_agent_env_vars (inst : VibeInstance)
    (agent : InstanceAiAgent) : List (String × String) :=
  match agent.agent_type with
  | "claude-code" =>
      (match agent.api_key_encrypted with
        | some api_key => [("ANTHROPIC_API_KEY", api_key)]
        | none => []) ++
      [("CLAUDE_CONFIG_DIR", inst.data_dir ++ "/ai-agents/claude-code")]
  | "codex-cli" =>
      (match agent.api_key_encrypted with
        | some api_key => [("OPENAI_API_KEY", api_key)]
        | none => []) ++
      [("CODEX_CONFIG_HOME", inst.data_dir ++ "/ai-agents/codex-cli")]
  | "gemini-cli" =>
      (match agent.api_key_encrypted with
        | some api_key => [("GOOGLE_API_KEY", api_key)]
        | none => []) ++
      [("GEMINI_CONFIG_DIR", inst.data_dir ++ "/ai-agents/gemini-cli")]
  | "opencode" =>
      [("OPENCODE_CONFIG_DIR", inst.data_dir ++ "/ai-agents/opencode")]
  | _ => []

/-- `InstanceManager::prepare_environment`: fixed variables followed by
the per-enabled-agent variables. -/
def InstanceManager.prepare_environment (agents : List InstanceAiAgent)
    (inst : VibeInstance) : List (String × String) :=
  [("PORT", toString inst.port), ("BACKEND_PORT", toString inst.port),
   ("HOST", "127.0.0.1"), ("VIBE_DATA_DIR", inst.data_dir),
   ("RUST_LOG", "info")] ++
  (InstanceAiAgent.list_enabled_by_instance agents inst.id).flatMap
    (InstanceManager.get_agent_env_vars inst)

/-- C1 failing input: a claude-code agent record, enabled, whose stored
`api_key_encrypted` is the AES-256-GCM encryption of `"sk-AAA"` under the
all-zero 32-byte key and all-zero nonce. -/
def c1Agent : InstanceAiAgent :=
  ⟨"ag1", "i1", "claude-code", true,
    some "AAAAAAAAAAAAAAAAvcxtfAwhlgoXpcYO3hnH3cUMzN/iIQ==", none, none, 0, 0⟩

/-- C1 failing-input instance. -/
def c1Inst : VibeInstance :=
  ⟨"i1", "alpha", none, 18100, "/data/i1", "stopped", true, none, 0, 0,
    none, some "unknown", none, none⟩

/-- C1: the code binds `ANTHROPIC_API_KEY` to the stored ciphertext, not
the decrypted plaintext.  At this concrete input the stored blob decrypts
(under the configured key) to the UTF-8 bytes of `"sk-AAA"`, yet the
environment assembled for the child carries the base64 ciphertext blob
verbatim. -/
theorem C1_env_binds_ciphertext :
    EncryptionService.decrypt ⟨some (List.replicate 32 0)⟩
        "AAAAAAAAAAAAAAAAvcxtfAwhlgoXpcYO3hnH3cUMzN/iIQ=="
      = .ok [115, 107, 45, 65, 65, 65]
    ∧ InstanceManager.prepare_environment [c1Agent] c1Inst
      = [("PORT", "18100"), ("BACKEND_PORT", "18100"), ("HOST", "127.0.0.1"),
         ("VIBE_DATA_DIR", "/data/i1"), ("RUST_LOG", "info"),
         ("ANTHROPIC_API_KEY", "AAAAAAAAAAAAAAAAvcxtfAwhlgoXpcYO3hnH3cUMzN/iIQ=="),
         ("CLAUDE_CONFIG_DIR", "/data/i1/ai-agents/claude-code")]
    ∧ "AAAAAAAAAAAAAAAAvcxtfAwhlgoXpcYO3hnH3cUMzN/iIQ==" ≠ "sk-AAA" := by
  set_option maxRecDepth 100000 in
  refine ⟨by decide, by decide, by decide⟩

/-- `InstanceAiAgent::get_by_instance_and_type`. -/
def InstanceAiAgent.get_by_instance_and_type (agents : List InstanceAiAgent)
    (iid atype : String) : Option InstanceAiAgent :=
  agents.find? (fun a => a.instance_id == iid && a.agent_type == atype)

/-- `InstanceAiAgent::upsert` (`INSERT … ON CONFLICT(instance_id,
agent_type) DO UPDATE`): on conflict overwrite `is_enabled`, take the new
`api_key_encrypted`/`config_json`/`rate_limit_rpm` only when provided
(SQL `COALESCE(excluded.…, existing.…)`), and bump `updated_at`;
otherwise insert the fresh row. -/
def InstanceAiAgent.upsert (agents : List InstanceAiAgent)
    (id iid atype : String) (is_enabled : Bool)
    (api_key_encrypted config_json : Option String)
    (rate_limit_rpm : Option Int) (now : Int) : List InstanceAiAgent :=
  if agents.any (fun a => a.instance_id == iid && a.agent_type == atype) then
    agents.map fun a =>
      if a.instance_id == iid && a.agent_type == atype then
        { a with
            is_enabled := is_enabled
            api_key_encrypted := api_key_encrypted.orElse
              (fun _ => a.api_key_encrypted)
            config_json := config_json.orElse (fun _ => a.config_json)
            rate_limit_rpm := rate_limit_rpm.orElse (fun _ => a.rate_limit_rpm)
            updated_at := now }
      else a
  else
    agents ++ [⟨id, iid, atype, is_enabled, api_key_encrypted, config_json,
      rate_limit_rpm, now, now⟩]

/-- `AgentConfigRequest` (agent_config_manager.rs); the free-form JSON
`config` document is carried as its serialised text. -/
structure AgentConfigRequest where
  is_enabled : Bool
  api_key : Option String
  config : Option String
  rate_limit_rpm : Option Int

/-- `AgentType::from_str` succeeds exactly on the four known agent types. -/
def agentTypeValid (s : String) : Bool :=
  s == "claude-code" || s == "codex-cli" || s == "gemini-cli" || s == "opencode"

/-- `AgentConfigInfo` (instance_ai_agent.rs): the public projection that
never exposes key material — only `has_api_key`. -/
structure AgentConfigInfo where
  agent_type : String
  is_enabled : Bool
  has_api_key : Bool
  config : Option String
  rate_limit_rpm : Option Int
deriving DecidableEq

/-- `impl From<InstanceAiAgent> for AgentConfigInfo`. -/
def InstanceAiAgent.toInfo (a : InstanceAiAgent) : AgentConfigInfo :=
  { agent_type := a.agent_type, is_enabled := a.is_enabled,
    has_api_key := a.api_key_encrypted.isSome, config := a.config_json,
    rate_limit_rpm := a.rate_limit_rpm }

/-- The UTF-8 bytes of a string (the `&str` → `as_bytes` boundary). -/
def strBytes (s : String) : List Nat :=
  s.toUTF8.toList.map (fun b => b.toNat)

/-- `AgentConfigManager::set_config`: validate the instance and agent
type, encrypt the key when one is supplied (the fresh CSPRNG nonce is the
`nonce` argument), upsert on `(instance_id, agent_type)` and re-read the
row.  The on-disk config-file materialisation has no effect on the
relational state and is not modelled. -/
def AgentConfigManager.set_config (db : Db) (enc : EncryptionService)
    (nonce : List Nat) (iid atype : String) (request : AgentConfigRequest)
    (newId : String) (now : Int) : Except AppError AgentConfigInfo × Db :=
  match VibeInstance.get_by_id db.instances iid with
  | none => (.error (.NotFound "实例不存在"), db)
  | some _ =>
    if ¬ agentTypeValid atype then
      (.error (.BadRequest ("未知的智能体类型: " ++ atype)), db)
    else
      match request.api_key.map (fun k => enc.encrypt nonce (strBytes k)) with
      | some (.error e) => (.error (.Internal e), db)
      | some (.ok ct) =>
          setConfigUpsert db iid atype request (some ct) newId now
      | none =>
          setConfigUpsert db iid atype request none newId now
where
  /-- The upsert-and-reread tail of `set_config`. -/
  setConfigUpsert (db : Db) (iid atype : String) (request : AgentConfigRequest)
      (api_key_encrypted : Option String) (newId : String) (now : Int) :
      Except AppError AgentConfigInfo × Db :=
    let agents2 := InstanceAiAgent.upsert db.agents newId iid atype
      request.is_enabled api_key_encrypted request.config
      request.rate_limit_rpm now
    match InstanceAiAgent.get_by_instance_and_type agents2 iid atype with
    | none => (.error (.Internal "RowNotFound"), { db with agents := agents2 })
    | some row => (.ok row.toInfo, { db with agents := agents2 })

/-- `find?`-level description of a conflicting upsert: the first matching
row is updated in place. -/
theorem InstanceAiAgent.get_upsert_existing (agents : List InstanceAiAgent)
    (id iid atype : String) (is_enabled : Bool)
    (api_key_encrypted config_json : Option String)
    (rate_limit_rpm : Option Int) (now : Int)
    (hex : agents.any (fun a => a.instance_id == iid && a.agent_type == atype)
      = true) :
    InstanceAiAgent.get_by_instance_and_type
        (InstanceAiAgent.upsert agents id iid atype is_enabled
          api_key_encrypted config_json rate_limit_rpm now) iid atype
      = (InstanceAiAgent.get_by_instance_and_type agents iid atype).map
          (fun a => { a with
            is_enabled := is_enabled
            api_key_encrypted := api_key_encrypted.orElse
              (fun _ => a.api_key_encrypted)
            config_json := config_json.orElse (fun _ => a.config_json)
            rate_limit_rpm := rate_limit_rpm.orElse (fun _ => a.rate_limit_rpm)
            updated_at := now }) := by
  rw [InstanceAiAgent.upsert, if_pos hex]
  clear hex
  induction agents with
  | nil => rfl
  | cons a rest ih =>
      by_cases h : (a.instance_id == iid && a.agent_type == atype) = true
      · have hp : a.instance_id = iid ∧ a.agent_type = atype := by
          rw [Bool.and_eq_true, beq_iff_eq, beq_iff_eq] at h
          exact h
        simp [InstanceAiAgent.get_by_instance_and_type, List.find?_cons,
          hp.1, hp.2]
      · have hb : (a.instance_id == iid && a.agent_type == atype) = false := by
          rw [Bool.eq_false_iff]
          exact h
        simp only [List.map_cons, if_neg h]
        simp only [InstanceAiAgent.get_by_instance_and_type, List.find?_cons]
          at ih ⊢
        simp only [hb] at ih ⊢
        exact ih

/-- C10: on an existing `(instance, agent_type)` agent-config row holding
a stored encrypted key, `set_config` with `api_key = None` keeps
`api_key_encrypted` (and `config_json` or `rate_limit_rpm` when the
request omits them) while overwriting `is_enabled`; `has_api_key` stays
true, so a stored key cannot be cleared through `set_config`. -/
theorem C10_set_config_preserves_key (db : Db) (enc : EncryptionService)
    (nonce : List Nat) (iid atype : String) (request : AgentConfigRequest)
    (newId : String) (now : Int) (row : InstanceAiAgent) (k : String)
    (hvalid : agentTypeValid atype = true)
    (hinst : (VibeInstance.get_by_id db.instances iid).isSome)
    (hrow : InstanceAiAgent.get_by_instance_and_type db.agents iid atype
      = some row)
    (hkey : row.api_key_encrypted = some k)
    (hnone : request.api_key = none) :
    ∃ info db2,
      AgentConfigManager.set_config db enc nonce iid atype request newId now
        = (.ok info, db2)
      ∧ InstanceAiAgent.get_by_instance_and_type db2.agents iid atype
        = some { row with
            is_enabled := request.is_enabled
            api_key_encrypted := some k
            config_json := request.config.orElse (fun _ => row.config_json)
            rate_limit_rpm := request.rate_limit_rpm.orElse
              (fun _ => row.rate_limit_rpm)
            updated_at := now }
      ∧ info.has_api_key = true := by
  obtain ⟨inst, hinst2⟩ := Option.isSome_iff_exists.mp hinst
  have hex : db.agents.any
      (fun a => a.instance_id == iid && a.agent_type == atype) = true := by
    rw [List.any_eq_true]
    have hrow2 := hrow
    rw [InstanceAiAgent.get_by_instance_and_type] at hrow2
    have hpred := List.find?_some hrow2
    exact ⟨row, List.mem_of_find?_eq_some hrow2, hpred⟩
  have hup := InstanceAiAgent.get_upsert_existing db.agents newId iid atype
    request.is_enabled none request.config request.rate_limit_rpm now hex
  rw [hrow] at hup
  rw [AgentConfigManager.set_config, hinst2]
  try dsimp only
  rw [if_neg (by rw [hvalid]; exact fun h => h rfl), hnone]
  try dsimp only
  rw [AgentConfigManager.set_config.setConfigUpsert]
  try dsimp only
  rw [hup]
  try dsimp only [Option.map]
  refine ⟨_, _, rfl, ?_, ?_⟩
  · rw [hup]
    simp [Option.orElse, hkey]
  · simp [InstanceAiAgent.toInfo, Option.orElse, hkey]

/-- C10 witness agent row: enabled flag off, stored key, config and rate
limit present. -/
def c10Row : InstanceAiAgent :=
  ⟨"ag1", "i1", "claude-code", false, some "CT", some "{}", some 60, 0, 0⟩

/-- C10 witness instance row. -/
def c10Inst : VibeInstance :=
  ⟨"i1", "alpha", none, 18100, "/data/i1", "stopped", true, none, 0, 0,
    none, some "unknown", none, none⟩

/-- C10 witness state. -/
def c10Db : Db :=
  { users := [], sessions := [], instances := [c10Inst], assignments := [],
    agents := [c10Row] }

/-- C10 witness request: toggle `is_enabled` with everything else absent. -/
def c10Req : AgentConfigRequest := ⟨true, none, none, none⟩

/-- C10 witness: `set_config` with an absent key leaves the stored
ciphertext, config and rate limit in place. -/
theorem C10_witness :
    ∃ info db2,
      AgentConfigManager.set_config c10Db ⟨none⟩ [] "i1" "claude-code" c10Req
        "new" 7 = (.ok info, db2)
      ∧ InstanceAiAgent.get_by_instance_and_type db2.agents "i1" "claude-code"
        = some { c10Row with
            is_enabled := c10Req.is_enabled
            api_key_encrypted := some "CT"
            config_json := c10Req.config.orElse (fun _ => c10Row.config_json)
            rate_limit_rpm := c10Req.rate_limit_rpm.orElse
              (fun _ => c10Row.rate_limit_rpm)
            updated_at := 7 }
      ∧ info.has_api_key = true :=
  C10_set_config_preserves_key c10Db ⟨none⟩ [] "i1" "claude-code" c10Req
    "new" 7 c10Row "CT" (by decide) (by decide) (by decide) (by decide)
    (by decide)

/-! ### Reverse proxy (`routes/proxy.rs`) -/

/-- An incoming HTTP request as the handler sees it: method, path suffix
(the `{*path}` capture), optional raw query, headers and body bytes
(already within the 10 MiB cap). -/
structure ProxyRequest where
  method : String
  query : Option String
  headers : List (String × String)
  body : List Nat
deriving DecidableEq

/-- First header with the given (lowercase) name. -/
def headerGet (headers : List (String × String)) (name : String) :
    Option String :=
  (headers.find? (fun h => h.1 == name)).map (fun h => h.2)

/-- `str::starts_with`, on the character sequences. -/
def strStarts (pre s : String) : Bool := pre.data.isPrefixOf s.data

/-- `str::trim`: strip whitespace from both ends. -/
def strTrim (s : String) : String :=
  String.mk
    (((s.data.dropWhile Char.isWhitespace).reverse.dropWhile
      Char.isWhitespace).reverse)

/-- Scan the split cookie list for `auth_token=`. -/
def findAuthCookie : List String → Option String
  | [] => none
  | c :: rest =>
      if strStarts "auth_token=" c then some (c.drop 11)
      else findAuthCookie rest

/-- `extract_token`: `Bearer` token from the `Authorization` header, else
the `auth_token` cookie. -/
def extract_token (req : ProxyRequest) : Option String :=
  let fromAuth := (headerGet req.headers "authorization").bind fun auth =>
    if strStarts "Bearer " auth then some (auth.drop 7) else none
  match fromAuth with
  | some t => some t
  | none =>
      (headerGet req.headers "cookie").bind fun cookies =>
        findAuthCookie ((cookies.splitOn ";").map strTrim)

/-- `UserInstanceAssignment::get_by_user_and_instance`. -/
def UserInstanceAssignment.get_by_user_and_instance
    (asgs : List UserInstanceAssignment) (uid iid : String) :
    Option UserInstanceAssignment :=
  asgs.find? (fun a => a.user_id == uid && a.instance_id == iid)

/-- `UserManager::is_user_assigned_to_instance`. -/
def is_user_assigned_to_instance (asgs : List UserInstanceAssignment)
    (uid iid : String) : Bool :=
  (UserInstanceAssignment.get_by_user_and_instance asgs uid iid).isSome

/-- The request the proxy sends to the child process. -/
structure UpstreamRequest where
  method : String
  url : String
  body : Option (List Nat)
  contentType : Option String
deriving DecidableEq

/-- Steps 7–9 of the handler: build the target URL
`http://127.0.0.1:<port>/api/<path>[?<query>]`, attach the body when
non-empty, and in that case set the request `Content-Type` header — the
source hardcodes `"application/json"` here. -/
def buildUpstream (inst : VibeInstance) (path : String) (req : ProxyRequest) :
    UpstreamRequest :=
  let vibePath := "/api/" ++ path
  let targetPath := match req.query with
    | some q => vibePath ++ "?" ++ q
    | none => vibePath
  { method := req.method,
    url := "http://127.0.0.1:" ++ toString inst.port ++ targetPath,
    body := if req.body.isEmpty then none else some req.body,
    contentType := if req.body.isEmpty then none
      else some "application/json" }

/-- The upstream child's response. -/
structure UpstreamResponse where
  status : Nat
  contentType : Option String
  body : List Nat
deriving DecidableEq

/-- The response relayed to the caller. -/
structure ClientResponse where
  status : Nat
  contentType : String
  body : List Nat
deriving DecidableEq

/-- Relaying of the upstream response: status, `Content-Type` (defaulting
to `application/json` when the upstream sends none) and body bytes. -/
def relay_response (resp : UpstreamResponse) : ClientResponse :=
  { status := resp.status,
    contentType := resp.contentType.getD "application/json",
    body := resp.body }

/-- The decision of the proxy handler: an error response (status and the
JSON envelope's `code`), or a forwarded upstream request. -/
inductive ProxyStep where
  | reject (status : Nat) (code : String)
  | forward (u : UpstreamRequest)
deriving DecidableEq

/-- Everything `proxy_handler` reaches: the relational state, the
external-crate functions of `verify_session`, the session configuration
and the outcome of a synchronous `instance_manager.start` call. -/
structure ProxyWorld where
  db : Db
  jwtVerify : String → Option Claims
  hashToken : String → String
  cfg : SessionConfig
  startOutcome : String → Except AppError Unit

/-- The `AuthWorld` view of a proxy world. -/
def ProxyWorld.auth (w : ProxyWorld) : AuthWorld :=
  { users := w.db.users, sessions := w.db.sessions,
    jwtVerify := w.jwtVerify, hashToken := w.hashToken }

/-- `proxy_handler` (steps 1–7): token extraction, session verification,
current-instance resolution, assignment check, instance lookup, lazy
start, and construction of the forwarded request. -/
def proxy_handler (w : ProxyWorld) (path : String) (req : ProxyRequest)
    (now : Int) : ProxyStep :=
  match extract_token req with
  | none => .reject 401 "UNAUTHORIZED"
  | some token =>
    match (verify_session w.auth w.cfg token now).1 with
    | .error _ => .reject 401 "UNAUTHORIZED"
    | .ok user =>
      match user.current_instance_id with
      | none => .reject 400 "NO_INSTANCE"
      | some instance_id =>
        if ¬ is_user_assigned_to_instance w.db.assignments user.id instance_id
        then .reject 403 "UNAUTHORIZED"
        else
          match VibeInstance.get_by_id w.db.instances instance_id with
          | none => .reject 404 "NO_INSTANCE"
          | some inst =>
            if inst.status_enum ≠ InstanceStatus.Running then
              if inst.auto_start then
                match w.startOutcome instance_id with
                | .error _ => .reject 503 "INSTANCE_NOT_RUNNING"
                | .ok _ => .forward (buildUpstream inst path req)
              else .reject 503 "INSTANCE_NOT_RUNNING"
            else .forward (buildUpstream inst path req)

/-- C3: the proxy handler decides by cases — no extractable token: 401;
failed session verification: 401; no current instance: 400/`NO_INSTANCE`;
not assigned: 403; missing instance row: 404; instance not running
without `auto_start`, or with a failed synchronous start: 503 /
`INSTANCE_NOT_RUNNING`; otherwise the request is forwarded upstream. -/
theorem C3_proxy_cases (w : ProxyWorld) (path : String) (req : ProxyRequest)
    (now : Int) :
    (extract_token req = none →
      proxy_handler w path req now = .reject 401 "UNAUTHORIZED")
    ∧ (∀ token e, extract_token req = some token →
        (verify_session w.auth w.cfg token now).1 = .error e →
        proxy_handler w path req now = .reject 401 "UNAUTHORIZED")
    ∧ (∀ token user, extract_token req = some token →
        (verify_session w.auth w.cfg token now).1 = .ok user →
        user.current_instance_id = none →
        proxy_handler w path req now = .reject 400 "NO_INSTANCE")
    ∧ (∀ token user iid, extract_token req = some token →
        (verify_session w.auth w.cfg token now).1 = .ok user →
        user.current_instance_id = some iid →
        is_user_assigned_to_instance w.db.assignments user.id iid = false →
        proxy_handler w path req now = .reject 403 "UNAUTHORIZED")
    ∧ (∀ token user iid, extract_token req = some token →
        (verify_session w.auth w.cfg token now).1 = .ok user →
        user.current_instance_id = some iid →
        is_user_assigned_to_instance w.db.assignments user.id iid = true →
        VibeInstance.get_by_id w.db.instances iid = none →
        proxy_handler w path req now = .reject 404 "NO_INSTANCE")
    ∧ (∀ token user iid inst, extract_token req = some token →
        (verify_session w.auth w.cfg token now).1 = .ok user →
        user.current_instance_id = some iid →
        is_user_assigned_to_instance w.db.assignments user.id iid = true →
        VibeInstance.get_by_id w.db.instances iid = some inst →
        inst.status_enum ≠ InstanceStatus.Running → inst.auto_start = false →
        proxy_handler w path req now = .reject 503 "INSTANCE_NOT_RUNNING")
    ∧ (∀ token user iid inst e, extract_token req = some token →
        (verify_session w.auth w.cfg token now).1 = .ok user →
        user.current_instance_id = some iid →
        is_user_assigned_to_instance w.db.assignments user.id iid = true →
        VibeInstance.get_by_id w.db.instances iid = some inst →
        inst.status_enum ≠ InstanceStatus.Running → inst.auto_start = true →
        w.startOutcome iid = .error e →
        proxy_handler w path req now = .reject 503 "INSTANCE_NOT_RUNNING")
    ∧ (∀ token user iid inst, extract_token req = some token →
        (verify_session w.auth w.cfg token now).1 = .ok user →
        user.current_instance_id = some iid →
        is_user_assigned_to_instance w.db.assignments user.id iid = true →
        VibeInstance.get_by_id w.db.instances iid = some inst →
        (inst.status_enum = InstanceStatus.Running ∨
          (inst.auto_start = true ∧ w.startOutcome iid = .ok ())) →
        proxy_handler w path req now
          = .forward (buildUpstream inst path req)) := by
  refine ⟨?_, ?_, ?_, ?_, ?_, ?_, ?_, ?_⟩
  · intro h
    rw [proxy_handler, h]
  · intro token e h1 h2
    rw [proxy_handler, h1]
    dsimp only
    rw [h2]
  · intro token user h1 h2 h3
    rw [proxy_handler, h1]
    dsimp only
    rw [h2]
    dsimp only
    rw [h3]
  · intro token user iid h1 h2 h3 h4
    rw [proxy_handler, h1]
    dsimp only
    rw [h2]
    dsimp only
    rw [h3]
    dsimp only
    rw [if_pos (by rw [h4]; exact fun h => Bool.false_ne_true h)]
  · intro token user iid h1 h2 h3 h4 h5
    rw [proxy_handler, h1]
    dsimp only
    rw [h2]
    dsimp only
    rw [h3]
    dsimp only
    rw [if_neg (by rw [h4]; exact fun h => h rfl), h5]
  · intro token user iid inst h1 h2 h3 h4 h5 h6 h7
    rw [proxy_handler, h1]
    dsimp only
    rw [h2]
    dsimp only
    rw [h3]
    dsimp only
    rw [if_neg (by rw [h4]; exact fun h => h rfl), h5]
    dsimp only
    rw [if_pos h6, if_neg (by rw [h7]; exact Bool.false_ne_true)]
  · intro token user iid inst e h1 h2 h3 h4 h5 h6 h7 h8
    rw [proxy_handler, h1]
    dsimp only
    rw [h2]
    dsimp only
    rw [h3]
    dsimp only
    rw [if_neg (by rw [h4]; exact fun h => h rfl), h5]
    dsimp only
    rw [if_pos h6, if_pos h7, h8]
  · intro token user iid inst h1 h2 h3 h4 h5 h6
    rw [proxy_handler, h1]
    dsimp only
    rw [h2]
    dsimp only
    rw [h3]
    dsimp only
    rw [if_neg (by rw [h4]; exact fun h => h rfl), h5]
    dsimp only
    rcases h6 with h6 | ⟨h6a, h6b⟩
    · rw [if_neg (fun h => h h6)]
    · by_cases hrun : inst.status_enum = InstanceStatus.Running
      · rw [if_neg (fun h => h hrun)]
      · rw [if_pos hrun, if_pos h6a, h6b]

/-- C3 witness world: empty state; the JWT verifier rejects everything. -/
def c3World : ProxyWorld :=
  { db := ⟨[], [], [], [], []⟩, jwtVerify := fun _ => none,
    hashToken := fun s => s, cfg := SessionConfig.default,
    startOutcome := fun _ => .ok () }

/-- C3 witness: a request with no credentials is rejected with 401. -/
theorem C3_witness :
    proxy_handler c3World "projects" ⟨"GET", none, [], []⟩ 0
      = .reject 401 "UNAUTHORIZED" :=
  (C3_proxy_cases c3World "projects" ⟨"GET", none, [], []⟩ 0).1 (by decide)

/-- C9 counterexample instance (running, port 18100). -/
def c9Inst : VibeInstance :=
  ⟨"i1", "alpha", none, 18100, "/data/i1", "running", true, none, 0, 0,
    none, some "healthy", none, none⟩

/-- C9 counterexample request: `Content-Type: text/plain` with a
non-empty body. -/
def c9Req : ProxyRequest :=
  ⟨"POST", none, [("content-type", "text/plain")], [123]⟩

/-- C9: FALSIFIED as stated.  The forwarded request does not carry the
original `Content-Type` header value: the handler hardcodes
`application/json` on the forwarded request whenever the body is
non-empty, here differing from the original `text/plain`. -/
theorem C9_counterexample :
    (buildUpstream c9Inst "projects" c9Req).contentType
      ≠ headerGet c9Req.headers "content-type" := by
  decide

/-- C9 (amended): a forwarded request carries the original method and the
original body bytes (omitted when empty) to
`http://127.0.0.1:<port>/api/<path>[?<query>]`, with the request
`Content-Type` fixed to `application/json` exactly when a body is sent;
the relayed response carries the upstream status code, the upstream
`Content-Type` (defaulting to `application/json` when absent) and the
upstream body bytes. -/
theorem C9_forward_relay (w : ProxyWorld) (path : String) (req : ProxyRequest)
    (now : Int) (token : String) (user : User) (iid : String)
    (inst : VibeInstance)
    (h1 : extract_token req = some token)
    (h2 : (verify_session w.auth w.cfg token now).1 = .ok user)
    (h3 : user.current_instance_id = some iid)
    (h4 : is_user_assigned_to_instance w.db.assignments user.id iid = true)
    (h5 : VibeInstance.get_by_id w.db.instances iid = some inst)
    (h6 : inst.status_enum = InstanceStatus.Running) :
    ∃ u, proxy_handler w path req now = .forward u
      ∧ u.method = req.method
      ∧ u.url = "http://127.0.0.1:" ++ toString inst.port ++ "/api/" ++ path
          ++ (match req.query with | some q => "?" ++ q | none => "")
      ∧ u.body = (if req.body.isEmpty then none else some req.body)
      ∧ u.contentType
          = (if req.body.isEmpty then none else some "application/json")
      ∧ ∀ resp : UpstreamResponse,
          (relay_response resp).status = resp.status
          ∧ (relay_response resp).contentType
              = resp.contentType.getD "application/json"
          ∧ (relay_response resp).body = resp.body := by
  refine ⟨buildUpstream inst path req,
    (C3_proxy_cases w path req now).2.2.2.2.2.2.2 token user iid inst h1 h2 h3
      h4 h5 (Or.inl h6), rfl, ?_, rfl, rfl, fun resp => ⟨rfl, rfl, rfl⟩⟩
  cases hq : req.query with
  | none => simp [buildUpstream, hq, String.append_assoc]
  | some q => simp [buildUpstream, hq, String.append_assoc]

/-- C9 witness user. -/
def c9User : User :=
  ⟨"u1", "alice", none, "ph", none, "user", some "i1", true, 0, 0, none⟩

/-- C9 witness world: an active user with a live session, assigned to the
running instance, presenting a bearer token. -/
def c9World : ProxyWorld :=
  { db := ⟨[c9User], [⟨"s1", "u1", "h1", 100, 0, none, none⟩], [c9Inst],
      [⟨"as1", "u1", "i1", none, 1⟩], []⟩,
    jwtVerify := fun _ => some ⟨"u1", "alice", "user", 1000, 0⟩,
    hashToken := fun _ => "h1",
    cfg := ⟨100, 10, 5, "secret"⟩,
    startOutcome := fun _ => .ok () }

/-- C9 witness request with a bearer token and a non-empty body. -/
def c9WReq : ProxyRequest :=
  ⟨"POST", some "limit=5", [("authorization", "Bearer tok")], [123]⟩

/-- C9 witness: the forwarded request for `projects?limit=5` against the
running instance on port 18100. -/
theorem C9_witness :
    ∃ u, proxy_handler c9World "projects" c9WReq 50 = .forward u
      ∧ u.method = c9WReq.method
      ∧ u.url = "http://127.0.0.1:" ++ toString c9Inst.port ++ "/api/"
          ++ "projects"
          ++ (match c9WReq.query with | some q => "?" ++ q | none => "")
      ∧ u.body = (if c9WReq.body.isEmpty then none else some c9WReq.body)
      ∧ u.contentType
          = (if c9WReq.body.isEmpty then none else some "application/json")
      ∧ ∀ resp : UpstreamResponse,
          (relay_response resp).status = resp.status
          ∧ (relay_response resp).contentType
              = resp.contentType.getD "application/json"
          ∧ (relay_response resp).body = resp.body :=
  C9_forward_relay c9World "projects" c9WReq 50 "tok" c9User
    "i1" c9Inst (by decide) (by decide) (by decide) (by decide) (by decide)
    (by decide)

/-- Concrete instance of the tamper property: decrypting the blob of
`C1_env_binds_ciphertext` under a *different* key (last byte 1 instead of
0) fails the tag check. -/
theorem decrypt_wrong_key_concrete :
    EncryptionService.decrypt ⟨some (List.replicate 31 0 ++ [1])⟩
      "AAAAAAAAAAAAAAAAvcxtfAwhlgoXpcYO3hnH3cUMzN/iIQ=="
      = .error "解密失败" := by
  set_option maxRecDepth 100000 in decide

/-- Concrete instance of the tamper property: mutating one byte of the
same blob (`v` → `w` at the first ciphertext character) fails the tag
check under the correct key. -/
theorem decrypt_mutated_blob_concrete :
    EncryptionService.decrypt ⟨some (List.replicate 32 0)⟩
      "AAAAAAAAAAAAAAAAwcxtfAwhlgoXpcYO3hnH3cUMzN/iIQ=="
      = .error "解密失败" := by
  set_option maxRecDepth 100000 in decide
